import Mathlib

/-!
Verification development for the Drawbot repository: a shallow embedding of
the concurrency gate (main.py process_queue), the template cache
(cogs/utils.py Cache.load_workflow), the request parser (parse_prompt),
the resolution validator (validate_resolution), the VRAM resource monitor
(check_vram_usage) and the per-feature job builders
(cogs/txt2img.py, cogs/img2img.py, cogs/animate.py, cogs/depth.py),
together with theorems settling the specification claims.
-/

namespace Drawbot

/-! ## Python string and number primitives -/

/-- Python regex class backslash-s restricted to ASCII, as exercised by the
parser (space, tab, newline, carriage return, vertical tab, form feed). -/
def pyIsSpace (c : Char) : Bool :=
  c = ' ' || c = '\t' || c = '\n' || c = '\r' || c = '\x0b' || c = '\x0c'

/-- Python regex class backslash-w restricted to ASCII: letters, digits and
underscore. -/
def pyIsWord (c : Char) : Bool :=
  c.isAlpha || c.isDigit || c = '_'

/-- Length of the maximal leading run of characters satisfying p. -/
def countWhile (p : Char → Bool) : List Char → Nat
  | [] => 0
  | c :: cs => if p c then countWhile p cs + 1 else 0

/-- Python str.strip on the modelled (ASCII) whitespace set. -/
def pyStrip (s : List Char) : List Char :=
  ((s.dropWhile pyIsSpace).reverse.dropWhile pyIsSpace).reverse

/-- Python str.lower restricted to ASCII. -/
def pyLower (s : List Char) : List Char :=
  s.map Char.toLower

/-- Case-insensitive test that key occurs as the leading characters of s. -/
def ciLeads (key : List Char) (s : List Char) : Bool :=
  decide (pyLower key = pyLower (s.take key.length)) && decide (key.length ≤ s.length)

/-- Parse a Python digit group: digit (underscore? digit)*, the digit grammar
shared by int() and float() literals, returning its value and length. -/
def parseDigitGroup : List Char → Option (Nat × Nat)
  | [] => none
  | c :: cs =>
    if c.isDigit then
      some (parseDigitGroupAux (c.toNat - 48) 1 cs)
    else none
where
  parseDigitGroupAux (acc len : Nat) : List Char → Nat × Nat
  | [] => (acc, len)
  | c :: cs =>
    if c.isDigit then
      parseDigitGroupAux (acc * 10 + (c.toNat - 48)) (len + 1) cs
    else if c = '_' then
      match cs with
      | c' :: cs' =>
        if c'.isDigit then
          parseDigitGroupAux (acc * 10 + (c'.toNat - 48)) (len + 2) cs'
        else (acc, len)
      | [] => (acc, len)
    else (acc, len)

/-- Python int(string): optional surrounding whitespace, optional sign, a
digit group (with single underscores between digits). Returns none exactly
when CPython int() raises ValueError on the ASCII fragment modelled here. -/
def pyIntOfString (s : List Char) : Option Int :=
  let t := s.dropWhile pyIsSpace
  let (sign, t) : Int × List Char :=
    match t with
    | '+' :: r => (1, r)
    | '-' :: r => (-1, r)
    | _ => (1, t)
  match parseDigitGroup t with
  | none => none
  | some (v, len) =>
    let rest := t.drop len
    if rest.dropWhile pyIsSpace = [] then
      some (sign * (v : Int))
    else none

/-- Python float(string) on the finite-literal fragment: optional whitespace,
optional sign, (digits [. digits?] | . digits) with an optional decimal
exponent; special values such as inf and nan are outside the modelled
fragment. Returns the exact rational value. -/
def pyFloatOfString (s : List Char) : Option ℚ :=
  let t := s.dropWhile pyIsSpace
  let (sign, t) : ℚ × List Char :=
    match t with
    | '+' :: r => (1, r)
    | '-' :: r => (-1, r)
    | _ => (1, t)
  match pyFloatMantissa t with
  | none => none
  | some (m, rest) =>
    match rest with
    | 'e' :: r => pyFloatFinish sign m r
    | 'E' :: r => pyFloatFinish sign m r
    | _ =>
      if rest.dropWhile pyIsSpace = [] then some (sign * m) else none
where
  /-- mantissa: digits [. digits?] or . digits; value and remainder. -/
  pyFloatMantissa (t : List Char) : Option (ℚ × List Char) :=
    match parseDigitGroup t with
    | some (ip, len) =>
      let rest := t.drop len
      match rest with
      | '.' :: r =>
        match parseDigitGroup r with
        | some (fp, flen) =>
          some ((ip : ℚ) + (fp : ℚ) / (10 : ℚ) ^ (digitCount r flen), r.drop flen)
        | none => some ((ip : ℚ), r)
      | _ => some ((ip : ℚ), rest)
    | none =>
      match t with
      | '.' :: r =>
        match parseDigitGroup r with
        | some (fp, flen) =>
          some ((fp : ℚ) / (10 : ℚ) ^ (digitCount r flen), r.drop flen)
        | none => none
      | _ => none
  /-- number of actual digits inside the first len chars (underscores do not
  add fractional places). -/
  digitCount (r : List Char) (len : Nat) : Nat :=
    ((r.take len).filter Char.isDigit).length
  /-- exponent part after e/E: optional sign, digit group, then only
  whitespace. -/
  pyFloatFinish (sign m : ℚ) (r : List Char) : Option ℚ :=
    let (esign, r) : Int × List Char :=
      match r with
      | '+' :: rr => (1, rr)
      | '-' :: rr => (-1, rr)
      | _ => (1, r)
    match parseDigitGroup r with
    | none => none
    | some (e, elen) =>
      if (r.drop elen).dropWhile pyIsSpace = [] then
        some (sign * m * (10 : ℚ) ^ (esign * (e : Int)))
      else none

/-! ## Constants from cogs/utils.py (environment defaults) -/

/-- cogs/utils.py STATIC_WIDTH, env default 1024. -/
def STATIC_WIDTH : Int := 1024

/-- cogs/utils.py STATIC_HEIGHT, env default 1024. -/
def STATIC_HEIGHT : Int := 1024

/-- cogs/utils.py MAX_BATCH_SIZE, env default 5. -/
def MAX_BATCH_SIZE : Int := 5

/-- cogs/utils.py VRAM_THRESHOLD_GB, env default 20. -/
def VRAM_THRESHOLD_GB : ℚ := 20

/-- cogs/utils.py PROMPT_PREFIX constant. -/
def promptPrefixConst : String := "embedding:SimplePositiveXLv2,"

/-- cogs/utils.py DEFAULT_NEGATIVE_PROMPT constant. -/
def DEFAULT_NEGATIVE_PROMPT : String := "embedding:DeepNegative_xl_v1"

/-! ## validate_resolution (cogs/utils.py lines 132-139) -/

/-- cogs/utils.py validate_resolution: clamp each coordinate to [0, 2048]
with Python max/min; if either clamped coordinate is 0, return the static
default pair. -/
def validate_resolution (width height : Int) : Int × Int :=
  let width := max 0 (min width 2048)
  let height := max 0 (min height 2048)
  if width = 0 ∨ height = 0 then (STATIC_WIDTH, STATIC_HEIGHT)
  else (width, height)

/-! ## check_vram_usage (cogs/utils.py lines 141-157) -/

/-- Outcome of the GPUtil probe inside check_vram_usage: the import may fail,
the query may raise, or it yields the memoryUsed readings (MB) of the
detected GPUs. -/
inductive GpuProbe
  | importError
  | queryError
  | found (memoryUsedMB : List ℚ)

/-- The GPUtil.getGPUs() call as seen through the try block: an exceptional
outcome or the list of GPUs. -/
def getGPUs : GpuProbe → Except Unit (List ℚ)
  | .importError => .error ()
  | .queryError => .error ()
  | .found l => .ok l

/-- cogs/utils.py check_vram_usage: try to read the first GPU and compare
memoryUsed/1024 against VRAM_THRESHOLD_GB; no GPUs, ImportError and any other
exception all return true (fail open). Total: it never raises. -/
def check_vram_usage (probe : GpuProbe) : Bool :=
  match getGPUs probe with
  | .error _ => true
  | .ok [] => true
  | .ok (m :: _) => decide (m / 1024 ≤ VRAM_THRESHOLD_GB)

/-! ## parse_prompt (cogs/utils.py lines 100-130)

The Python function builds one regex from the settable-parameter vocabulary,
extracts key:value tokens with re.findall, removes each from the running
text with re.sub, normalizes comma spacing, and splits at a case-insensitive
neg: marker. The embedding below implements exactly that pipeline on char
lists; the regex fragments are translated operator by operator. -/

/-- Keys of cogs/utils.py get_settable_parameters. The Python code iterates
them as a set when joining the regex alternation; the order is irrelevant to
the embedding because no key is a prefix of another and a match requires the
key to be followed by a colon, so at most one alternative can match at any
position. -/
def get_settable_parameters_keys : List String :=
  ["steps", "cfg", "batch", "hr", "width", "height", "model", "noneg",
   "sampler_name", "scheduler", "depth", "colorize", "method"]

/-- Characters admitted by the regex value class, the complement class
excluding colon, comma and whitespace. -/
def isTokenChar (c : Char) : Bool :=
  !pyIsSpace c && c ≠ ',' && c ≠ ':'

/-- The parameter-key alternation with the following colon: returns the
unique vocabulary key matching case-insensitively at the head of s and
followed by a colon. -/
def findKeyAt (s : List Char) : Option (List Char) :=
  (get_settable_parameters_keys.map String.toList).find?
    (fun k => ciLeads k s && decide ((s.drop k.length).head? = some ':'))

/-- Boundaries after the first chunk: each further token reachable by the
regex value tail, a whitespace run followed by a nonempty token, reported as
absolute offsets. Fuel bounds the recursion by the remaining length. -/
def moreBoundaries : Nat → Nat → List Char → List Nat
  | 0, _, _ => []
  | fuel + 1, base, s =>
    let w := countWhile pyIsSpace s
    if w = 0 then []
    else
      let t := s.drop w
      let c := countWhile isTokenChar t
      if c = 0 then []
      else (base + w + c) :: moreBoundaries fuel (base + w + c) (t.drop c)

/-- All end offsets the greedy value expression can produce on rest: the
maximal first chunk (possibly empty), then each further whitespace-separated
token end. Offsets strictly inside a token never satisfy the lookahead, so
they are not enumerated. -/
def valueBoundaries (rest : List Char) : List Nat :=
  let b0 := countWhile isTokenChar rest
  b0 :: moreBoundaries rest.length b0 (rest.drop b0)

/-- The value lookahead of the parameter regex evaluated at a point: skip
whitespace and require a comma, or at least one skipped whitespace followed
by a maximal nonempty word run and a colon, or end of string. -/
def lookaheadOk (s : List Char) : Bool :=
  let k := countWhile pyIsSpace s
  match s.drop k with
  | [] => true
  | c :: _ =>
    c = ',' ||
      (decide (1 ≤ k) &&
        (let r := s.drop k
         let w := countWhile pyIsWord r
         decide (1 ≤ w) && decide ((r.drop w).head? = some ':')))

/-- Greedy value search: the regex tries the longest candidate end first and
backtracks token by token until the lookahead holds. -/
def findValue (rest : List Char) : Option Nat :=
  (valueBoundaries rest).reverse.find? (fun b => lookaheadOk (rest.drop b))

/-- One attempt of the parameter regex at the head of s: the matched key in
its original spelling, the raw matched value and the total matched length. -/
def tryMatchAt (s : List Char) : Option (List Char × List Char × Nat) :=
  match findKeyAt s with
  | none => none
  | some k =>
    let rest := s.drop (k.length + 1)
    match findValue rest with
    | none => none
    | some b => some (s.take k.length, rest.take b, k.length + 1 + b)

/-- The re.findall scan: try the parameter regex at every position from the
left, emit each match and resume scanning after it. Fuel bounds the scan by
the text length; every step consumes at least one character. -/
def findallAux : Nat → List Char → List (List Char × List Char)
  | 0, _ => []
  | _ + 1, [] => []
  | fuel + 1, s =>
    match tryMatchAt s with
    | some (k, v, len) => (k, v) :: findallAux fuel (s.drop len)
    | none => findallAux fuel (s.drop 1)

/-- The re.sub removal of one extracted parameter: every occurrence of the
literal key:value followed by a whitespace run and an optional single comma
is deleted. Case sensitive, as in the source, which substitutes the matched
key spelling back into a fresh pattern. -/
def subRemoveAux : Nat → List Char → List Char → List Char
  | 0, _, s => s
  | _ + 1, _, [] => []
  | fuel + 1, lit, c :: cs =>
    if List.isPrefixOf lit (c :: cs) then
      let r := (c :: cs).drop lit.length
      let r := r.drop (countWhile pyIsSpace r)
      match r with
      | ',' :: r2 => subRemoveAux fuel lit r2
      | _ => subRemoveAux fuel lit r
    else c :: subRemoveAux fuel lit cs

/-- The comma-spacing normalization re.sub: each leftmost occurrence of
whitespace-comma-whitespace becomes a comma and one space. -/
def commaNormAux : Nat → List Char → List Char
  | 0, s => s
  | _ + 1, [] => []
  | fuel + 1, c :: cs =>
    let w := countWhile pyIsSpace (c :: cs)
    match (c :: cs).drop w with
    | ',' :: r =>
      ',' :: ' ' :: commaNormAux fuel (r.drop (countWhile pyIsSpace r))
    | _ => c :: commaNormAux fuel cs

/-- Index of the first case-insensitive occurrence of pat in s, the search
used both by the membership test on the lowered text and by the single
re.split at the neg: marker. -/
def findCIAux (pat : List Char) : List Char → Option Nat
  | [] => none
  | c :: cs => if ciLeads pat (c :: cs) then some 0 else (findCIAux pat cs).map (· + 1)

/-- Python dict assignment on the parameter mapping: overwrite in place when
the key exists, else append, preserving insertion order. -/
def updateAssoc (m : List (String × String)) (k v : String) : List (String × String) :=
  if m.any (fun p => p.1 = k) then m.map (fun p => if p.1 = k then (k, v) else p)
  else m ++ [(k, v)]

/-- Python dict get on an association list. -/
def lookupAssoc (m : List (String × String)) (k : String) : Option String :=
  (m.find? (fun p => p.1 = k)).map (·.2)

/-- cogs/utils.py parse_prompt: strip the text, extract the vocabulary
key:value matches, remove each from the running text, normalize comma
spacing, split at the first case-insensitive neg: marker into positive and
negative prompts, merge a neg parameter if one was extracted, and default an
empty positive prompt to the sentinel "enhance". An absent negative prompt
is none; an empty one after the marker stays the empty string, as in the
source where only None is distinguished by callers. -/
def parse_prompt (input : String) : String × Option String × List (String × String) :=
  let text0 := pyStrip input.toList
  let found := findallAux text0.length text0
  let step := fun (acc : List (String × String) × List Char) (kv : List Char × List Char) =>
    let ps := updateAssoc acc.1 (String.mk (pyLower kv.1)) (String.mk (pyStrip kv.2))
    let lit := kv.1 ++ ':' :: kv.2
    (ps, pyStrip (subRemoveAux acc.2.length lit acc.2))
  let pt := found.foldl step ([], text0)
  let params := pt.1
  let text1 := pt.2
  let text2 := pyStrip (commaNormAux text1.length text1)
  let posneg : List Char × Option (List Char) :=
    match findCIAux ['n', 'e', 'g', ':'] text2 with
    | some i => (pyStrip (text2.take i), some (pyStrip (text2.drop (i + 4))))
    | none => (pyStrip text2, none)
  let positive := String.mk posneg.1
  let negative := (posneg.2).map String.mk
  let final : Option String × List (String × String) :=
    match lookupAssoc params "neg" with
    | some nv =>
      (match negative with
       | some np => if np ≠ "" then some (nv ++ ", " ++ np) else some nv
       | none => some nv,
       params.filter (fun p => p.1 ≠ "neg"))
    | none => (negative, params)
  ((if positive = "" then "enhance" else positive), final.1, final.2)

/-! ## Workflow values and node-input operations

A job template is a YAML mapping from integer node ids to node records; the
builders only ever touch the "inputs" mapping of a node, so a node is
modelled by its inputs association list. Subscripting a missing node raises
KeyError in Python, so the mutating operations return Except. -/

/-- A value stored in a node input slot: string, integer or float (floats
modelled as rationals). -/
inductive PVal
  | s (v : String)
  | i (v : Int)
  | q (v : ℚ)
deriving DecidableEq

/-- The inputs mapping of one node. -/
abbrev Inputs := List (String × PVal)

/-- A workflow at value level: node id to node inputs, insertion ordered. -/
abbrev WfVal := List (Int × Inputs)

/-- Python dict assignment on an inputs mapping: overwrite in place or
append. -/
def setIn (inp : Inputs) (k : String) (v : PVal) : Inputs :=
  if inp.any (fun p => p.1 = k) then inp.map (fun p => if p.1 = k then (k, v) else p)
  else inp ++ [(k, v)]

/-- Python dict read on an inputs mapping. -/
def getIn (inp : Inputs) (k : String) : Option PVal :=
  (inp.find? (fun p => p.1 = k)).map (·.2)

/-- Node lookup workflow[n]. -/
def getNode (wf : WfVal) (n : Int) : Option Inputs :=
  (wf.find? (fun p => p.1 = n)).map (·.2)

/-- workflow[n]["inputs"][k] = v; KeyError (.error) when node n is absent. -/
def setNodeInput (wf : WfVal) (n : Int) (k : String) (v : PVal) : Except Unit WfVal :=
  match getNode wf n with
  | none => .error ()
  | some _ => .ok (wf.map (fun p => if p.1 = n then (p.1, setIn p.2 k v) else p))

/-- workflow[n]["inputs"].update(kvs); KeyError when node n is absent. -/
def updateNodeInputs (wf : WfVal) (n : Int) (kvs : List (String × PVal)) : Except Unit WfVal :=
  match getNode wf n with
  | none => .error ()
  | some _ =>
    .ok (wf.map (fun p =>
      if p.1 = n then (p.1, kvs.foldl (fun m kv => setIn m kv.1 kv.2) p.2) else p))

/-- Read workflow[n]["inputs"][k]. -/
def getNodeInput (wf : WfVal) (n : Int) (k : String) : Option PVal :=
  (getNode wf n).bind (fun inp => getIn inp k)

/-! ## Model configuration (config/ package, not in the snapshot) -/

/-- Modelled from the spec: the checkpoint name behind the distinguished
flagship model key. config/available_models.py is absent from the snapshot. -/
def uncannyCkpt : String := "uncannyCheckpoint.safetensors"

/-- Modelled from the spec: the checkpoint behind the other example model
named by the parameter table. -/
def indigoCkpt : String := "indigoCheckpoint.safetensors"

/-- Modelled from the spec: config/available_models.py AVAILABLE_MODELS is
not part of the repository snapshot; only its import and uses are. The spec
describes a mapping from model keys to backend checkpoint names with one
distinguished flagship key, spelled "uncanny" by the code, and the parameter
table names "indigo" as another available model; distinct keys map to
distinct checkpoints. -/
def AVAILABLE_MODELS : List (String × String) :=
  [("uncanny", uncannyCkpt), ("indigo", indigoCkpt)]

/-- Modelled from the spec: config/default_model.py DEFAULT_MODEL is not in
the snapshot; the parameter table lists the model parameter default as
"uncanny". -/
def DEFAULT_MODEL : String := "uncanny"

/-- Python dict subscript dict[k]: KeyError when absent. -/
def dictItem (m : List (String × String)) (k : String) : Except Unit String :=
  match lookupAssoc m k with
  | some v => .ok v
  | none => .error ()

/-! ## Small Python helpers shared by the builders -/

/-- str.lower as a String function. -/
def strLower (s : String) : String := String.mk (pyLower s.toList)

/-- str.strip as a String function. -/
def pyStripS (s : String) : String := String.mk (pyStrip s.toList)

/-- params.get(k, dflt) with a string default. -/
def pGet (params : List (String × String)) (k dflt : String) : String :=
  (lookupAssoc params k).getD dflt

/-- The user model preference store bot.user_model_preferences. -/
abbrev Prefs := List (Nat × String)

/-- preferences.get(user). -/
def prefsGet (prefs : Prefs) (u : Nat) : Option String :=
  (prefs.find? (fun p => p.1 = u)).map (·.2)

/-- preferences[user] = v. -/
def prefsSet (prefs : Prefs) (u : Nat) (v : String) : Prefs :=
  if prefs.any (fun p => p.1 = u) then prefs.map (fun p => if p.1 = u then (u, v) else p)
  else prefs ++ [(u, v)]

/-! ## _safe_int and _safe_float (cogs/txt2img.py lines 21-33; the identical
methods also appear on Img2ImgCog in cogs/img2img.py lines 29-41) -/

/-- Txt2ImgCog._safe_int: int(value) if value is not None else default, with
ValueError/TypeError replaced by the default. Total: never raises. -/
def safe_int (value : Option String) (dflt : Int) : Int :=
  match value with
  | none => dflt
  | some s =>
    match pyIntOfString s.toList with
    | some n => n
    | none => dflt

/-- Txt2ImgCog._safe_float: float(value) if value is not None else default,
with ValueError/TypeError replaced by the default. Total: never raises. -/
def safe_float (value : Option String) (dflt : ℚ) : ℚ :=
  match value with
  | none => dflt
  | some s =>
    match pyFloatOfString s.toList with
    | some q => q
    | none => dflt

/-! ## Job builders (template-filling front parts) -/

/-- Curated negative prompt forced by the flagship model in
generate_image_txt2img (cogs/txt2img.py line 52, verbatim). -/
def txt2imgUncannyNeg : String :=
  "lowres, (worst quality, bad quality:1.2), bad anatomy, sketch, jpeg artifacts..."

/-- Curated prompt prefix forced by the flagship model in
generate_image_txt2img (cogs/txt2img.py line 53, verbatim). -/
def txt2imgUncannyPre : String := "masterpiece, very awa, best quality..."

/-- Curated negative prompt in generate_image_img2img (cogs/img2img.py line
58, verbatim; it differs from the txt2img one). -/
def img2imgUncannyNeg : String :=
  "lowres, (worst quality, bad quality:1.2), bad anatomy, sketch..."

/-- Curated prompt prefix in generate_image_img2img (cogs/img2img.py line
59). -/
def img2imgUncannyPre : String := "masterpiece, very awa, best quality..."

/-- Outcome of a builder front part: the filled workflow plus the preference
store after the model-parameter side effect and whether save_preferences was
invoked. -/
structure BuildResult where
  workflow : WfVal
  prefs : Prefs
  savedPrefs : Bool
deriving DecidableEq

/-- cogs/txt2img.py generate_image_txt2img, lines 36-71: template selection
by the hr flag, abort on an empty template, model resolution and the
preference side effect, flagship overrides, prompt and negative prompt
filling, sampler settings, resolution and batch clamping. The two templates
stand for the cached load results for txt2img_workflow.yaml and its hr
variant; the random seed is a parameter; the enqueue-and-await tail is
modelled separately. -/
def generate_image_txt2img (wfStd wfHr : WfVal) (prefs : Prefs) (userId : Nat)
    (prompt negativePrompt : String) (params : List (String × String)) (seed : Int) :
    Except Unit (Option BuildResult) :=
  let workflow := if strLower (pGet params "hr" "no") = "yes" then wfHr else wfStd
  if workflow = [] then .ok none else do
  let modelKey := (lookupAssoc params "model").getD ((prefsGet prefs userId).getD DEFAULT_MODEL)
  let dfltCkpt ← dictItem AVAILABLE_MODELS DEFAULT_MODEL
  let ckptName := (lookupAssoc AVAILABLE_MODELS (strLower modelKey)).getD dfltCkpt
  let st :=
    if (lookupAssoc params "model").getD "" ≠ "" then
      (prefsSet prefs userId (strLower modelKey), true)
    else (prefs, false)
  let wf ← setNodeInput workflow 4 "ckpt_name" (.s ckptName)
  let noNeg := strLower (pGet params "noneg" "false") = "true"
  let flagship ← dictItem AVAILABLE_MODELS "uncanny"
  let npw ←
    if ckptName = flagship ∧ ¬noNeg then do
      let wf ← updateNodeInputs wf 3
        [("cfg", .q 2.2), ("sampler_name", .s "euler_ancestral"), ("scheduler", .s "sgm_uniform")]
      pure (txt2imgUncannyNeg, txt2imgUncannyPre, wf)
    else pure (negativePrompt, promptPrefixConst, wf)
  let wf ← setNodeInput npw.2.2 6 "text" (.s (pyStripS (npw.2.1 ++ " " ++ prompt)))
  let wf ← setNodeInput wf 7 "text"
    (.s (if noNeg then "" else (if npw.1 = "" then DEFAULT_NEGATIVE_PROMPT else npw.1)))
  let wf ← updateNodeInputs wf 3
    [("steps", .i (safe_int (lookupAssoc params "steps") 35)),
     ("cfg", .q (if ckptName ≠ flagship then safe_float (lookupAssoc params "cfg") 4 else 2.2)),
     ("seed", .i seed),
     ("sampler_name", .s (if ckptName ≠ flagship then pGet params "sampler_name" "dpmpp_2m_sde"
                          else "euler_ancestral")),
     ("scheduler", .s (if ckptName ≠ flagship then pGet params "scheduler" "exponential"
                       else "sgm_uniform"))]
  let wh := validate_resolution (safe_int (lookupAssoc params "width") STATIC_WIDTH)
    (safe_int (lookupAssoc params "height") STATIC_HEIGHT)
  let batchSize := min (safe_int (lookupAssoc params "batch") 1) MAX_BATCH_SIZE
  let wf ← updateNodeInputs wf 5
    [("width", .i wh.1), ("height", .i wh.2), ("batch_size", .i batchSize)]
  pure (some ⟨wf, st.1, st.2⟩)

/-- cogs/img2img.py generate_image_img2img, lines 44-75: the same shape as
the txt2img builder with the img2img curated strings, no resolution or batch
block, and the staged input image filename written into node 5. The fresh
uuid filename is a parameter. -/
def generate_image_img2img (wfStd wfHr : WfVal) (prefs : Prefs) (userId : Nat)
    (prompt negativePrompt : String) (params : List (String × String)) (seed : Int)
    (uniqueFilename : String) : Except Unit (Option BuildResult) :=
  let workflow := if strLower (pGet params "hr" "no") = "yes" then wfHr else wfStd
  if workflow = [] then .ok none else do
  let modelKey := (lookupAssoc params "model").getD ((prefsGet prefs userId).getD DEFAULT_MODEL)
  let dfltCkpt ← dictItem AVAILABLE_MODELS DEFAULT_MODEL
  let ckptName := (lookupAssoc AVAILABLE_MODELS (strLower modelKey)).getD dfltCkpt
  let st :=
    if (lookupAssoc params "model").getD "" ≠ "" then
      (prefsSet prefs userId (strLower modelKey), true)
    else (prefs, false)
  let wf ← setNodeInput workflow 4 "ckpt_name" (.s ckptName)
  let noNeg := strLower (pGet params "noneg" "false") = "true"
  let flagship ← dictItem AVAILABLE_MODELS "uncanny"
  let npw ←
    if ckptName = flagship ∧ ¬noNeg then do
      let wf ← updateNodeInputs wf 3
        [("cfg", .q 2.2), ("sampler_name", .s "euler_ancestral"), ("scheduler", .s "sgm_uniform")]
      pure (img2imgUncannyNeg, img2imgUncannyPre, wf)
    else pure (negativePrompt, promptPrefixConst, wf)
  let wf ← setNodeInput npw.2.2 6 "text" (.s (pyStripS (npw.2.1 ++ " " ++ prompt)))
  let wf ← setNodeInput wf 7 "text"
    (.s (if noNeg then "" else (if npw.1 = "" then DEFAULT_NEGATIVE_PROMPT else npw.1)))
  let wf ← updateNodeInputs wf 3
    [("steps", .i (safe_int (lookupAssoc params "steps") 35)),
     ("cfg", .q (if ckptName ≠ flagship then safe_float (lookupAssoc params "cfg") 4 else 2.2)),
     ("seed", .i seed),
     ("sampler_name", .s (if ckptName ≠ flagship then pGet params "sampler_name" "dpmpp_2m_sde"
                          else "euler_ancestral")),
     ("scheduler", .s (if ckptName ≠ flagship then pGet params "scheduler" "exponential"
                       else "sgm_uniform"))]
  let wf ← setNodeInput wf 5 "image" (.s uniqueFilename)
  pure (some ⟨wf, st.1, st.2⟩)

/-- Curated negative prompt in generate_image_animate (cogs/animate.py line
52, verbatim). -/
def animateUncannyNeg : String :=
  "lowres, (worst quality, bad quality:1.2), bad anatomy, sketch, jpeg artifacts, old, oldest, censored, bar_censor, copyright_name, (dialogue), text, speech bubble, Dialogue box, error, fewer, extra, missing, worst quality, low quality, watermark, signature, extra digits, username, scan, abstract, multiple views, (censored), worst quality, low quality, logo, bad hands, mutated hands"

/-- Curated prompt prefix in generate_image_animate (cogs/animate.py line
53, verbatim). -/
def animateUncannyPre : String :=
  "masterpiece, very awa, best quality, amazing quality, very aesthetic, absurdres, newest, intricate details"

/-- cogs/animate.py generate_image_animate, lines 39-69: template copy and
empty guard, model resolution (with literal "uncanny" fallbacks and no
preference side effect), flagship overrides on node 7, prompt filling on
nodes 5 and 6, then the numeric parameters. Unlike the txt2img and img2img
builders, steps uses raw int(params.get("steps", 35)) and cfg raw
float(params.get("cfg", 4.0)), whose ValueError on an unparseable value
propagates out of the builder (.error). -/
def generate_image_animate (animateWf : WfVal) (prefs : Prefs) (userId : Nat)
    (prompt negativePrompt : String) (params : List (String × String)) (seed : Int) :
    Except Unit (Option WfVal) :=
  let workflow := animateWf
  if workflow = [] then .ok none else do
  let modelKey := (lookupAssoc params "model").getD ((prefsGet prefs userId).getD "uncanny")
  let flagship ← dictItem AVAILABLE_MODELS "uncanny"
  let ckptName := (lookupAssoc AVAILABLE_MODELS (strLower modelKey)).getD flagship
  let wf ← setNodeInput workflow 3 "ckpt_name" (.s ckptName)
  let noNeg := strLower (pGet params "noneg" "false") = "true"
  let npw ←
    if ckptName = flagship ∧ ¬noNeg then do
      let wf ← setNodeInput wf 7 "cfg" (.q 2.2)
      let wf ← setNodeInput wf 7 "sampler_name" (.s "euler_ancestral")
      let wf ← setNodeInput wf 7 "scheduler" (.s "sgm_uniform")
      pure (animateUncannyNeg, animateUncannyPre, wf)
    else pure (negativePrompt, promptPrefixConst, wf)
  let wf ← setNodeInput npw.2.2 5 "text" (.s (pyStripS (npw.2.1 ++ " " ++ prompt)))
  let wf ← setNodeInput wf 6 "text"
    (.s (if noNeg then "" else (if npw.1 = "" then DEFAULT_NEGATIVE_PROMPT else npw.1)))
  let steps ←
    match lookupAssoc params "steps" with
    | none => Except.ok (35 : Int)
    | some s =>
      match pyIntOfString s.toList with
      | some n => Except.ok n
      | none => Except.error ()
  let wf ← setNodeInput wf 7 "steps" (.i steps)
  let wf ←
    if ckptName ≠ flagship then do
      let cfg ←
        match lookupAssoc params "cfg" with
        | none => Except.ok (4 : ℚ)
        | some s =>
          match pyFloatOfString s.toList with
          | some q => Except.ok q
          | none => Except.error ()
      setNodeInput wf 7 "cfg" (.q cfg)
    else pure wf
  let wf ← setNodeInput wf 7 "seed" (.i seed)
  let wf ←
    if ckptName ≠ flagship then do
      let wf ← setNodeInput wf 7 "sampler_name" (.s (pGet params "sampler_name" "dpmpp_2m_sde"))
      setNodeInput wf 7 "scheduler" (.s (pGet params "scheduler" "exponential"))
    else pure wf
  pure (some wf)

/-! ## The backend client and the enqueue-and-await tails (C2)

Each generation site defines a local zero-argument closure
async def task(): submit the workflow, and if a prompt id came back, poll
for the outputs; then performs bot.task_queue.put_nowait(task) followed by
images = await asyncio.wait_for(task(), timeout). The backend is abstracted
as its two HTTP operations; images are opaque. The wait_for timeout and the
VRAM cancellation are real-time behaviour outside the model: result below
is the value the direct invocation produces when it completes. -/

/-- Opaque generated images. -/
abbrev Images := List Nat

/-- The backend HTTP surface used by a queue entry: submit_comfyui_workflow
returning a prompt id or None on failure, and fetch_comfyui_outputs
returning the output images or None on failure. -/
structure Backend where
  submit : WfVal → Option String
  fetchOutputs : String → Option Images

/-- A queue entry: the zero-argument deferred closure, as a function of the
backend it will run against. -/
abbrev Job := Backend → Option Images

/-- The local task() closure of generate_image_txt2img (cogs/txt2img.py
lines 78-84). -/
def txt2imgTask (wf : WfVal) : Job := fun be =>
  match be.submit wf with
  | none => none
  | some pid => be.fetchOutputs pid

/-- The local task() closure of generate_image_img2img (cogs/img2img.py
lines 94-98). -/
def img2imgTask (wf : WfVal) : Job := fun be =>
  match be.submit wf with
  | none => none
  | some pid => be.fetchOutputs pid

/-- The local task() closure of generate_image_upscale (cogs/img2img.py
lines 129-133). -/
def upscaleTask (wf : WfVal) : Job := fun be =>
  match be.submit wf with
  | none => none
  | some pid => be.fetchOutputs pid

/-- The local task() closure of generate_image_inpaint (cogs/img2img.py
lines 178-182). -/
def inpaintTask (wf : WfVal) : Job := fun be =>
  match be.submit wf with
  | none => none
  | some pid => be.fetchOutputs pid

/-- The local task() closure of generate_depth_map (cogs/depth.py lines
71-76). -/
def depthTask (wf : WfVal) : Job := fun be =>
  match be.submit wf with
  | none => none
  | some pid => be.fetchOutputs pid

/-- Observable outcome of an enqueue-and-await tail: the task queue after
put_nowait and the value the awaited call returns. -/
structure SiteOutcome where
  queue : List Job
  result : Option Images

/-- Tail of generate_image_txt2img (lines 86-87): put task on the queue,
then await a direct invocation of task itself. -/
def txt2imgEnqueueAwait (wf : WfVal) (queue : List Job) (be : Backend) : SiteOutcome :=
  let task := txt2imgTask wf
  { queue := queue ++ [task], result := task be }

/-- Tail of generate_image_img2img (lines 100-101). -/
def img2imgEnqueueAwait (wf : WfVal) (queue : List Job) (be : Backend) : SiteOutcome :=
  let task := img2imgTask wf
  { queue := queue ++ [task], result := task be }

/-- Tail of generate_image_upscale (cogs/img2img.py lines 135-136). -/
def upscaleEnqueueAwait (wf : WfVal) (queue : List Job) (be : Backend) : SiteOutcome :=
  let task := upscaleTask wf
  { queue := queue ++ [task], result := task be }

/-- Tail of generate_image_inpaint (cogs/img2img.py lines 184-185). -/
def inpaintEnqueueAwait (wf : WfVal) (queue : List Job) (be : Backend) : SiteOutcome :=
  let task := inpaintTask wf
  { queue := queue ++ [task], result := task be }

/-- Tail of generate_depth_map (cogs/depth.py lines 78-80). -/
def depthEnqueueAwait (wf : WfVal) (queue : List Job) (be : Backend) : SiteOutcome :=
  let task := depthTask wf
  { queue := queue ++ [task], result := task be }

/-! ## The concurrency gate (main.py lines 27-29 and 78-89)

The bot holds one asyncio FIFO queue, a running-task counter and the ceiling
max_concurrent_tasks = 2. The dispatcher loop, when running_tasks is below
the ceiling, pops the next entry, increments the counter, awaits the entry
to completion and decrements the counter in a finally block. The small-step
relation below has one step for pop-and-increment (no suspension separates
them in the source), one for completion-and-decrement, and one for a
producer enqueue; arrived, started and completed are history variables. The
0.1 second sleep is a scheduling no-op. Entries are opaque terminating
jobs. -/

/-- main.py Bot.max_concurrent_tasks. -/
def maxConcurrentTasks : Nat := 2

/-- Dispatcher control point: between iterations, or inside await task(). -/
inductive GatePhase
  | idle
  | executing (j : Nat)
deriving DecidableEq

/-- Gate state: the FIFO queue, the running counter, the dispatcher phase
and history variables recording arrival, start and completion order. -/
structure GateState where
  queue : List Nat
  running : Nat
  phase : GatePhase
  arrived : List Nat
  started : List Nat
  completed : List Nat
deriving DecidableEq

/-- Number of queue entries executing at this instant. -/
def execCount (s : GateState) : Nat :=
  match s.phase with
  | .idle => 0
  | .executing _ => 1

/-- One step of the system: the dispatcher admission (guarded by the
ceiling, popping FIFO and incrementing), the completion of the running
entry (decrementing, also on failure), or an enqueue by a producer. -/
inductive GateStep : GateState → GateState → Prop
  | dequeue (s : GateState) (j : Nat) (rest : List Nat) :
      s.running < maxConcurrentTasks → s.phase = .idle → s.queue = j :: rest →
      GateStep s { s with queue := rest, running := s.running + 1, phase := .executing j,
                          started := s.started ++ [j] }
  | finish (s : GateState) (j : Nat) :
      s.phase = .executing j →
      GateStep s { s with running := s.running - 1, phase := .idle,
                          completed := s.completed ++ [j] }
  | enqueue (s : GateState) (j : Nat) :
      GateStep s { s with queue := s.queue ++ [j], arrived := s.arrived ++ [j] }

/-- Reachability by gate steps. -/
inductive GateReaches : GateState → GateState → Prop
  | refl (s : GateState) : GateReaches s s
  | tail {a b c : GateState} : GateReaches a b → GateStep b c → GateReaches a c

/-- Initial state for a batch submitted simultaneously: all jobs queued in
arrival order, nothing running. -/
def initGate (batch : List Nat) : GateState :=
  { queue := batch, running := 0, phase := .idle, arrived := batch,
    started := [], completed := [] }

/-! ## Template cache: aliasing model (C3)

Cache.load_workflow ends with return Cache.workflows.get(name, {}).copy():
dict.copy() is one level deep, so the fresh top-level dict still names the
same node objects and the same nested inputs dicts. The heap model makes
the sharing explicit: a workflow dict maps node ids to node addresses, each
node object points at its inputs dict, and the builders mutate through
those addresses. -/

/-- Heap addresses of Python objects. -/
abbrev Addr := Nat

/-- The store behind nested workflow dicts: node objects point to their
inputs dict, inputs dicts hold their entries. The class_type field of a node
record plays no role in sharing and is omitted. -/
structure WfHeap where
  nodeInputs : Addr → Option Addr
  inputsEntries : Addr → Option Inputs

/-- A top-level workflow dict: node ids naming node-object addresses. -/
abbrev WfDict := List (Int × Addr)

/-- The dict.copy() performed on the cached template at every load: a fresh
top-level dict with exactly the same node entries; nothing behind the node
addresses is copied. -/
def loadCachedCopy (cached : WfDict) : WfDict := cached

/-- The caller-side mutation workflow[n]["inputs"][k] = v performed by the
job builders, acting through the heap; none when a lookup fails. -/
def heapSetNodeInput (h : WfHeap) (wf : WfDict) (n : Int) (k : String) (v : PVal) :
    Option WfHeap :=
  ((wf.find? (fun p => p.1 = n)).map (·.2)).bind fun a =>
    (h.nodeInputs a).bind fun ia =>
      (h.inputsEntries ia).map fun entries =>
        { h with inputsEntries := fun a2 =>
            if a2 = ia then some (setIn entries k v) else h.inputsEntries a2 }

/-- The read workflow[n]["inputs"][k] through the heap. -/
def heapGetNodeInput (h : WfHeap) (wf : WfDict) (n : Int) (k : String) : Option PVal :=
  ((wf.find? (fun p => p.1 = n)).map (·.2)).bind fun a =>
    (h.nodeInputs a).bind fun ia =>
      (h.inputsEntries ia).bind fun entries => getIn entries k

/-- A concrete populated cache heap: one cached template with node 4 whose
inputs dict holds ckpt_name. Node object at address 0, inputs dict at
address 1. -/
def exHeap : WfHeap :=
  { nodeInputs := fun a => if a = 0 then some 1 else none,
    inputsEntries := fun a => if a = 1 then some [("ckpt_name", .s "original")] else none }

/-- The cached top-level dict of that template. -/
def exCache : WfDict := [(4, 0)]

/-! ## Template cache: load result model (C4)

Cache.load_workflow (cogs/utils.py lines 52-62) on a cache miss opens the
file with aiofiles (FileNotFoundError propagates), parses it with
yaml.safe_load (YAMLError propagates), and only when the parse result is
truthy normalizes the keys with int() (ValueError propagates) and stores
it; the return is the stored value or the empty dict. There is no
try/except in the function. -/

/-- One template file as seen through open and safe_load. -/
inductive TemplateFile
  | missing
  | badYaml
  | emptyDoc
  | doc (entries : List (String × Inputs))

/-- The key-normalization loop: every raw key through int(); ValueError on
any key aborts the whole load. -/
def intKeys : List (String × Inputs) → Option WfVal
  | [] => some []
  | (k, node) :: rest =>
    match pyIntOfString k.toList with
    | none => none
    | some n => (intKeys rest).map (fun r => (n, node) :: r)

/-- Cache.load_workflow for one name at value level: the cached entry for
that name (or none) and the backing file; returns the cache entry after the
call and the workflow handed to the caller, or .error when open, safe_load
or int() raises. A false parse result (None or an empty mapping) is logged
and not stored, and the caller receives the empty dict. -/
def load_workflow (file : TemplateFile) (cached : Option WfVal) :
    Except Unit (Option WfVal × WfVal) :=
  match cached with
  | some wf => .ok (some wf, wf)
  | none =>
    match file with
    | .missing => .error ()
    | .badYaml => .error ()
    | .emptyDoc => .ok (none, [])
    | .doc entries =>
      if entries = [] then .ok (none, [])
      else
        match intKeys entries with
        | none => .error ()
        | some wf => .ok (some wf, wf)

/-! ## Concrete templates for witnesses and counterexamples -/

/-- A small concrete txt2img/img2img template with the node slots the
builders touch. -/
def exTemplate : WfVal :=
  [(3, [("cfg", .q 4), ("sampler_name", .s "s0"), ("scheduler", .s "sc0"),
        ("steps", .i 1), ("seed", .i 0)]),
   (4, [("ckpt_name", .s "c0")]),
   (5, [("width", .i 0), ("height", .i 0), ("batch_size", .i 1), ("image", .s "")]),
   (6, [("text", .s "")]),
   (7, [("text", .s "")])]

/-- A small concrete animate template with the node slots the animate
builder touches. -/
def exAnimateWf : WfVal :=
  [(3, [("ckpt_name", .s "c0")]),
   (5, [("text", .s "")]),
   (6, [("text", .s "")]),
   (7, [("cfg", .q 4), ("sampler_name", .s "s0"), ("scheduler", .s "sc0"),
        ("steps", .i 1), ("seed", .i 0)])]

/-- The model key resolution shared by the txt2img and img2img builders:
the explicit model parameter, else the stored user preference, else the
global default model (cogs/txt2img.py line 42). -/
def resolvedModelKey (params : List (String × String)) (prefs : Prefs) (uid : Nat) : String :=
  (lookupAssoc params "model").getD ((prefsGet prefs uid).getD DEFAULT_MODEL)

/-- The checkpoint resolution with the silent default-model fallback
(cogs/txt2img.py line 43); the eagerly evaluated fallback is the default
model checkpoint. -/
def resolvedCkpt (params : List (String × String)) (prefs : Prefs) (uid : Nat) : String :=
  (lookupAssoc AVAILABLE_MODELS (strLower (resolvedModelKey params prefs uid))).getD uncannyCkpt

/-- A concrete txt2img builder run with an unknown model key, used to
witness the preference-persistence behaviour. -/
def unknownModelTxtRun : Except Unit (Option BuildResult) :=
  generate_image_txt2img exTemplate exTemplate [] 1 "p" "n" [("model", "NoSuchModel")] 7

/-- The successful result of that run. -/
def unknownModelTxtResult : BuildResult :=
  match unknownModelTxtRun with
  | .ok (some r) => r
  | _ => ⟨[], [], false⟩

/-- A concrete img2img builder run with an unknown model key. -/
def unknownModelImgRun : Except Unit (Option BuildResult) :=
  generate_image_img2img exTemplate exTemplate [] 1 "p" "n" [("model", "NoSuchModel")] 7 "in.png"

/-- The successful result of that run. -/
def unknownModelImgResult : BuildResult :=
  match unknownModelImgRun with
  | .ok (some r) => r
  | _ => ⟨[], [], false⟩

/-- A concrete txt2img builder run with the explicit model key indigo, used
to witness the non-flagship settings. -/
def indigoTxtRun : Except Unit (Option BuildResult) :=
  generate_image_txt2img exTemplate exTemplate [] 1 "p" "n" [("model", "indigo")] 7

/-- The successful result of that run. -/
def indigoTxtResult : BuildResult :=
  match indigoTxtRun with
  | .ok (some r) => r
  | _ => ⟨[], [], false⟩

/-- A concrete img2img builder run with the explicit model key indigo. -/
def indigoImgRun : Except Unit (Option BuildResult) :=
  generate_image_img2img exTemplate exTemplate [] 1 "p" "n" [("model", "indigo")] 7 "in.png"

/-- The successful result of that run. -/
def indigoImgResult : BuildResult :=
  match indigoImgRun with
  | .ok (some r) => r
  | _ => ⟨[], [], false⟩

/-- Inductive invariant of the gate: the running counter mirrors the
dispatcher phase, and the arrival history is the starts followed by the
pending queue. -/
def GateInv (s : GateState) : Prop :=
  (s.phase = .idle → s.running = 0) ∧
  (∀ j, s.phase = .executing j → s.running = 1) ∧
  s.arrived = s.started ++ s.queue

end Drawbot

/-! ## Theorems -/

namespace Drawbot

/-! ### Association-list and bind lemmas -/

theorem bindOk {α β : Type} {x : Except Unit α} {f : α → Except Unit β} {b : β} :
    x >>= f = .ok b ↔ ∃ a, x = .ok a ∧ f a = .ok b := by
  cases x <;> simp [Bind.bind, Except.bind]

theorem okBind {α β : Type} (a : α) (f : α → Except Unit β) :
    (Except.ok a : Except Unit α) >>= f = f a := rfl

theorem errBind {α β : Type} (f : α → Except Unit β) :
    (Except.error () : Except Unit α) >>= f = .error () := rfl

theorem pureBind {α β : Type} (a : α) (f : α → Except Unit β) :
    (pure a : Except Unit α) >>= f = f a := rfl

theorem neBindOk {α β : Type} {x : Except Unit α} {f : α → Except Unit β} {b : β}
    (h : ∀ a, f a ≠ .ok b) : x >>= f ≠ .ok b := by
  cases x with
  | error e => simp [Bind.bind, Except.bind]
  | ok a => simpa [Bind.bind, Except.bind] using h a

theorem getIn_cons (hd : String × PVal) (tl : Inputs) (k : String) :
    getIn (hd :: tl) k = if hd.1 = k then some hd.2 else getIn tl k := by
  by_cases h : hd.1 = k <;> simp [getIn, List.find?, h]

theorem getNode_cons (hd : Int × Inputs) (tl : WfVal) (n : Int) :
    getNode (hd :: tl) n = if hd.1 = n then some hd.2 else getNode tl n := by
  by_cases h : hd.1 = n <;> simp [getNode, List.find?, h]

theorem getIn_mapRepl (l : Inputs) (k : String) (v : PVal)
    (h : l.any (fun p => p.1 = k) = true) :
    getIn (l.map (fun p => if p.1 = k then (k, v) else p)) k = some v := by
  induction l with
  | nil => simp at h
  | cons hd tl ih =>
    simp only [List.map_cons]
    by_cases hk : hd.1 = k
    · rw [if_pos hk, getIn_cons, if_pos rfl]
    · rw [if_neg hk, getIn_cons, if_neg hk]
      refine ih ?_
      rw [List.any_cons] at h
      simpa [hk] using h

theorem getIn_appendNew (l : Inputs) (k : String) (v : PVal)
    (h : l.any (fun p => p.1 = k) = false) :
    getIn (l ++ [(k, v)]) k = some v := by
  induction l with
  | nil => simp [getIn, List.find?]
  | cons hd tl ih =>
    rw [List.any_cons] at h
    have hk : ¬(hd.1 = k) := by
      intro hx
      rw [hx] at h
      simp at h
    rw [List.cons_append, getIn_cons, if_neg hk]
    refine ih ?_
    simpa [hk] using h

theorem getIn_setIn_same (l : Inputs) (k : String) (v : PVal) :
    getIn (setIn l k v) k = some v := by
  unfold setIn
  by_cases h : l.any (fun p => p.1 = k)
  · rw [if_pos h]
    exact getIn_mapRepl l k v h
  · rw [if_neg h]
    exact getIn_appendNew l k v (Bool.eq_false_iff.mpr h)

theorem getIn_mapRepl_other (l : Inputs) (k : String) (v : PVal) (k2 : String)
    (hne : k2 ≠ k) :
    getIn (l.map (fun p => if p.1 = k then (k, v) else p)) k2 = getIn l k2 := by
  have hkk2 : ¬(k = k2) := fun hx => hne hx.symm
  induction l with
  | nil => rfl
  | cons hd tl ih =>
    simp only [List.map_cons]
    by_cases hk : hd.1 = k
    · rw [if_pos hk, getIn_cons, getIn_cons, if_neg hkk2, if_neg (by rw [hk]; exact hkk2)]
      exact ih
    · rw [if_neg hk, getIn_cons, getIn_cons]
      by_cases hh : hd.1 = k2
      · rw [if_pos hh, if_pos hh]
      · rw [if_neg hh, if_neg hh]
        exact ih

theorem getIn_append_other (l : Inputs) (k : String) (v : PVal) (k2 : String)
    (hne : k2 ≠ k) :
    getIn (l ++ [(k, v)]) k2 = getIn l k2 := by
  have hkk2 : ¬(k = k2) := fun hx => hne hx.symm
  induction l with
  | nil =>
    rw [List.nil_append, getIn_cons, if_neg hkk2]
  | cons hd tl ih =>
    rw [List.cons_append, getIn_cons, getIn_cons]
    by_cases hh : hd.1 = k2
    · rw [if_pos hh, if_pos hh]
    · rw [if_neg hh, if_neg hh]
      exact ih

theorem getIn_setIn_other (l : Inputs) (k : String) (v : PVal) (k2 : String)
    (hne : k2 ≠ k) :
    getIn (setIn l k v) k2 = getIn l k2 := by
  unfold setIn
  by_cases h : l.any (fun p => p.1 = k)
  · rw [if_pos h]
    exact getIn_mapRepl_other l k v k2 hne
  · rw [if_neg h]
    exact getIn_append_other l k v k2 hne

theorem getNode_keyedMap (wf : WfVal) (n : Int) (g : Inputs → Inputs) (n2 : Int) :
    getNode (wf.map (fun p => if p.1 = n then (p.1, g p.2) else p)) n2 =
      if n2 = n then (getNode wf n2).map g else getNode wf n2 := by
  induction wf with
  | nil => by_cases h : n2 = n <;> simp [getNode, List.find?, h]
  | cons hd tl ih =>
    by_cases hn2 : n2 = n
    · subst hn2
      rw [if_pos rfl] at ih ⊢
      simp only [List.map_cons]
      by_cases hn : hd.1 = n2
      · rw [if_pos hn, getNode_cons, getNode_cons, if_pos hn, if_pos hn]
        rfl
      · rw [if_neg hn, getNode_cons, getNode_cons, if_neg hn, if_neg hn]
        exact ih
    · rw [if_neg hn2] at ih ⊢
      simp only [List.map_cons]
      by_cases hn : hd.1 = n
      · have hh : ¬(hd.1 = n2) := by rw [hn]; exact fun hx => hn2 hx.symm
        rw [if_pos hn, getNode_cons, getNode_cons, if_neg hh, if_neg hh]
        exact ih
      · rw [if_neg hn, getNode_cons, getNode_cons]
        by_cases hh : hd.1 = n2
        · rw [if_pos hh, if_pos hh]
        · rw [if_neg hh, if_neg hh]
          exact ih

theorem getNode_setMap (wf : WfVal) (n : Int) (k : String) (v : PVal) (n2 : Int) :
    getNode (wf.map (fun p => if p.1 = n then (p.1, setIn p.2 k v) else p)) n2 =
      if n2 = n then (getNode wf n2).map (fun i => setIn i k v) else getNode wf n2 :=
  getNode_keyedMap wf n (fun i => setIn i k v) n2

theorem getNode_updMap (wf : WfVal) (n : Int) (kvs : List (String × PVal)) (n2 : Int) :
    getNode (wf.map (fun p =>
        if p.1 = n then (p.1, kvs.foldl (fun m kv => setIn m kv.1 kv.2) p.2) else p)) n2 =
      if n2 = n then (getNode wf n2).map (fun i => kvs.foldl (fun m kv => setIn m kv.1 kv.2) i)
      else getNode wf n2 :=
  getNode_keyedMap wf n (fun i => kvs.foldl (fun m kv => setIn m kv.1 kv.2) i) n2

theorem setNodeInput_ok {wf wf2 : WfVal} {n : Int} {k : String} {v : PVal}
    (h : setNodeInput wf n k v = .ok wf2) :
    wf2 = wf.map (fun p => if p.1 = n then (p.1, setIn p.2 k v) else p) := by
  unfold setNodeInput at h
  cases hg : getNode wf n <;> rw [hg] at h
  · simp at h
  · injection h with h
    exact h.symm

theorem updateNodeInputs_ok {wf wf2 : WfVal} {n : Int} {kvs : List (String × PVal)}
    (h : updateNodeInputs wf n kvs = .ok wf2) :
    wf2 = wf.map (fun p =>
      if p.1 = n then (p.1, kvs.foldl (fun m kv => setIn m kv.1 kv.2) p.2) else p) := by
  unfold updateNodeInputs at h
  cases hg : getNode wf n <;> rw [hg] at h
  · simp at h
  · injection h with h
    exact h.symm

theorem getNodeInput_after_set {wf wf2 : WfVal} {n : Int} {k : String} {v : PVal}
    (h : setNodeInput wf n k v = .ok wf2) (n2 : Int) (k2 : String) :
    getNodeInput wf2 n2 k2 =
      if n2 = n then
        (if k2 = k then (getNode wf n).map (fun _ => v) else (getNode wf n2).bind (fun i => getIn i k2))
      else getNodeInput wf n2 k2 := by
  have heq := setNodeInput_ok h
  subst heq
  unfold getNodeInput
  rw [getNode_setMap]
  by_cases hn : n2 = n
  · subst hn
    rw [if_pos rfl, if_pos rfl]
    cases hg : getNode wf n2 with
    | none => simp
    | some inp =>
      by_cases hk : k2 = k
      · subst hk
        simp [getIn_setIn_same]
      · simp [hk, getIn_setIn_other inp k v k2 hk]
  · simp [hn]

theorem setNodeInput_ok_node {wf wf2 : WfVal} {n : Int} {k : String} {v : PVal}
    (h : setNodeInput wf n k v = .ok wf2) : ∃ i, getNode wf n = some i := by
  unfold setNodeInput at h
  cases hg : getNode wf n <;> rw [hg] at h
  · simp at h
  · exact ⟨_, rfl⟩

theorem getNodeInput_after_set_same {wf wf2 : WfVal} {n : Int} {k : String} {v : PVal}
    (h : setNodeInput wf n k v = .ok wf2) : getNodeInput wf2 n k = some v := by
  obtain ⟨i, hi⟩ := setNodeInput_ok_node h
  rw [getNodeInput_after_set h n k, if_pos rfl, if_pos rfl, hi]
  rfl

theorem getNodeInput_after_set_other {wf wf2 : WfVal} {n : Int} {k : String} {v : PVal}
    (h : setNodeInput wf n k v = .ok wf2) (n2 : Int) (k2 : String) (hne : n2 ≠ n) :
    getNodeInput wf2 n2 k2 = getNodeInput wf n2 k2 := by
  rw [getNodeInput_after_set h n2 k2, if_neg hne]

theorem getNodeInput_after_upd_other {wf wf2 : WfVal} {n : Int} {kvs : List (String × PVal)}
    (h : updateNodeInputs wf n kvs = .ok wf2) (n2 : Int) (k2 : String) (hne : n2 ≠ n) :
    getNodeInput wf2 n2 k2 = getNodeInput wf n2 k2 := by
  have heq := updateNodeInputs_ok h
  subst heq
  unfold getNodeInput
  rw [getNode_updMap, if_neg hne]

theorem getNodeInput_after_upd_same {wf wf2 : WfVal} {n : Int} {kvs : List (String × PVal)}
    (h : updateNodeInputs wf n kvs = .ok wf2) (k2 : String) :
    getNodeInput wf2 n k2 =
      (getNode wf n).bind (fun i => getIn (kvs.foldl (fun m kv => setIn m kv.1 kv.2) i) k2) := by
  have heq := updateNodeInputs_ok h
  subst heq
  unfold getNodeInput
  rw [getNode_updMap, if_pos rfl]
  cases getNode wf n <;> simp

theorem gateInv_init (batch : List Nat) : GateInv (initGate batch) := by
  refine ⟨fun _ => rfl, ?_, rfl⟩
  intro j h
  simp [initGate] at h

theorem gateInv_step {a b : GateState} (h : GateInv a) (st : GateStep a b) : GateInv b := by
  obtain ⟨h1, h2, h3⟩ := h
  cases st with
  | dequeue j rest hr hp hq =>
    refine ⟨?_, ?_, ?_⟩
    · intro hidle
      cases hidle
    · intro j2 hj2
      have h0 := h1 hp
      show a.running + 1 = 1
      omega
    · show a.arrived = (a.started ++ [j]) ++ rest
      rw [h3, hq]
      simp
  | finish j hp =>
    refine ⟨fun _ => ?_, ?_, h3⟩
    · have h0 := h2 j hp
      show a.running - 1 = 0
      omega
    · intro j2 hj2
      cases hj2
  | enqueue j =>
    refine ⟨h1, h2, ?_⟩
    show a.arrived ++ [j] = a.started ++ (a.queue ++ [j])
    rw [h3, List.append_assoc]

theorem gateInv_reaches {a b : GateState} (r : GateReaches a b) (h : GateInv a) : GateInv b := by
  induction r with
  | refl => exact h
  | tail _ st ih => exact gateInv_step ih st

theorem gateReaches_trans {a b c : GateState} (r1 : GateReaches a b) (r2 : GateReaches b c) :
    GateReaches a c := by
  induction r2 with
  | refl => exact r1
  | tail _ st ih => exact .tail ih st

/-- From an idle state whose arrival history splits as starts plus queue,
the dispatcher alone drains the whole queue, starting and completing each
pending entry in FIFO order. -/
theorem gate_drain (q : List Nat) : ∀ st cp arr, arr = st ++ q →
    GateReaches ⟨q, 0, .idle, arr, st, cp⟩ ⟨[], 0, .idle, arr, st ++ q, cp ++ q⟩ := by
  induction q with
  | nil =>
    intro st cp arr _
    simpa using GateReaches.refl (⟨[], 0, .idle, arr, st, cp⟩ : GateState)
  | cons j rest ih =>
    intro st cp arr h
    have st1 : GateStep ⟨j :: rest, 0, .idle, arr, st, cp⟩
        ⟨rest, 1, .executing j, arr, st ++ [j], cp⟩ :=
      GateStep.dequeue ⟨j :: rest, 0, .idle, arr, st, cp⟩ j rest
        (show (0 : Nat) < maxConcurrentTasks by decide) rfl rfl
    have st2 : GateStep ⟨rest, 1, .executing j, arr, st ++ [j], cp⟩
        ⟨rest, 0, .idle, arr, st ++ [j], cp ++ [j]⟩ :=
      GateStep.finish ⟨rest, 1, .executing j, arr, st ++ [j], cp⟩ j rfl
    have tailReach := ih (st ++ [j]) (cp ++ [j]) arr (by rw [h]; simp)
    have : GateReaches ⟨j :: rest, 0, .idle, arr, st, cp⟩
        ⟨[], 0, .idle, arr, (st ++ [j]) ++ rest, (cp ++ [j]) ++ rest⟩ :=
      gateReaches_trans (GateReaches.tail (GateReaches.tail (GateReaches.refl _) st1) st2)
        tailReach
    simpa using this

/-- C1: for every batch of jobs enqueued through the gate with ceiling 2, in
every reachable state (under any interleaving of dispatcher steps and
further enqueues) at most 2 entries execute at any instant and the running
counter stays at or below 2, entries begin executing in exact arrival (FIFO)
order, and the dispatcher reaches the state in which every job of the batch
has started and completed, in order. -/
theorem gate_admission_fifo (batch : List Nat) :
    (∀ s, GateReaches (initGate batch) s →
      execCount s ≤ 2 ∧ s.running ≤ 2 ∧
      s.started = s.arrived.take s.started.length) ∧
    GateReaches (initGate batch)
      { queue := [], running := 0, phase := .idle, arrived := batch,
        started := batch, completed := batch } := by
  constructor
  · intro s hs
    have hinv := gateInv_reaches hs (gateInv_init batch)
    obtain ⟨h1, h2, h3⟩ := hinv
    refine ⟨?_, ?_, ?_⟩
    · cases hph : s.phase <;> simp [execCount, hph]
    · cases hph : s.phase with
      | idle => rw [h1 hph]; decide
      | executing j => rw [h2 j hph]; decide
    · rw [h3, List.take_left]
  · simpa using gate_drain batch [] [] batch rfl

/-- C1 witness: the safety part applied to the batch 1..5 at the (reachable)
initial state, and the completion part for that batch. -/
theorem gate_admission_fifo_witness :
    execCount (initGate [1, 2, 3, 4, 5]) ≤ 2 ∧
    GateReaches (initGate [1, 2, 3, 4, 5])
      { queue := [], running := 0, phase := .idle, arrived := [1, 2, 3, 4, 5],
        started := [1, 2, 3, 4, 5], completed := [1, 2, 3, 4, 5] } :=
  ⟨((gate_admission_fifo [1, 2, 3, 4, 5]).1 _ (GateReaches.refl _)).1,
    (gate_admission_fifo [1, 2, 3, 4, 5]).2⟩

/-- C2: at each of the five generation sites (text-to-image, image-to-image,
upscale, inpaint, depth) the closure placed on the task queue is the very
operation the caller separately awaits directly, the returned images are the
value of that direct invocation, and that value does not depend on the gate
queue at all, so the admission control never mediates the awaited work. -/
theorem enqueue_and_direct_await (wf : WfVal) (queue : List Job) (be : Backend) :
    ((txt2imgEnqueueAwait wf queue be).queue = queue ++ [txt2imgTask wf] ∧
      (txt2imgEnqueueAwait wf queue be).result = txt2imgTask wf be ∧
      ∀ q2, (txt2imgEnqueueAwait wf q2 be).result = (txt2imgEnqueueAwait wf queue be).result) ∧
    ((img2imgEnqueueAwait wf queue be).queue = queue ++ [img2imgTask wf] ∧
      (img2imgEnqueueAwait wf queue be).result = img2imgTask wf be ∧
      ∀ q2, (img2imgEnqueueAwait wf q2 be).result = (img2imgEnqueueAwait wf queue be).result) ∧
    ((upscaleEnqueueAwait wf queue be).queue = queue ++ [upscaleTask wf] ∧
      (upscaleEnqueueAwait wf queue be).result = upscaleTask wf be ∧
      ∀ q2, (upscaleEnqueueAwait wf q2 be).result = (upscaleEnqueueAwait wf queue be).result) ∧
    ((inpaintEnqueueAwait wf queue be).queue = queue ++ [inpaintTask wf] ∧
      (inpaintEnqueueAwait wf queue be).result = inpaintTask wf be ∧
      ∀ q2, (inpaintEnqueueAwait wf q2 be).result = (inpaintEnqueueAwait wf queue be).result) ∧
    ((depthEnqueueAwait wf queue be).queue = queue ++ [depthTask wf] ∧
      (depthEnqueueAwait wf queue be).result = depthTask wf be ∧
      ∀ q2, (depthEnqueueAwait wf q2 be).result = (depthEnqueueAwait wf queue be).result) :=
  ⟨⟨rfl, rfl, fun _ => rfl⟩, ⟨rfl, rfl, fun _ => rfl⟩, ⟨rfl, rfl, fun _ => rfl⟩,
    ⟨rfl, rfl, fun _ => rfl⟩, ⟨rfl, rfl, fun _ => rfl⟩⟩

/-- C3: evaluation of the shallow-copy sharing at a concrete cached
template. Before any mutation both copies read the original checkpoint
name; after the first caller assigns ckpt_name through its copy, the second
caller's independently obtained copy, and the cached template itself, read
the overwritten value: the copies are not independent at node and input-map
depth. -/
theorem shallow_copy_mutation_visible :
    heapGetNodeInput exHeap (loadCachedCopy exCache) 4 "ckpt_name" = some (.s "original") ∧
    ((heapSetNodeInput exHeap (loadCachedCopy exCache) 4 "ckpt_name" (.s "overwritten")).bind
      fun h2 => heapGetNodeInput h2 (loadCachedCopy exCache) 4 "ckpt_name")
        = some (.s "overwritten") ∧
    ((heapSetNodeInput exHeap (loadCachedCopy exCache) 4 "ckpt_name" (.s "overwritten")).bind
      fun h2 => heapGetNodeInput h2 exCache 4 "ckpt_name") = some (.s "overwritten") ∧
    (PVal.s "overwritten" : PVal) ≠ .s "original" := by
  refine ⟨rfl, rfl, rfl, by decide⟩

/-- C4 counterexample: for a template whose backing file is missing, and for
one whose text is not parseable YAML, load_workflow raises (the open and
safe_load exceptions propagate, there being no try/except in the function)
instead of returning an empty result. -/
theorem load_workflow_raises_on_missing :
    load_workflow .missing none = .error () ∧ load_workflow .badYaml none = .error () :=
  ⟨rfl, rfl⟩

/-- C4 amended: when the backing file exists and YAML-parses to an empty or
null document, load_workflow logs, stores nothing and returns the empty
template; the builders treat an empty template as feature-unavailable and
abort the request; but a missing file or an unparseable file makes
load_workflow raise, the exception propagating to the surrounding generic
handlers of the command layer. -/
theorem load_workflow_empty_vs_raise :
    load_workflow .emptyDoc none = .ok (none, []) ∧
    load_workflow (.doc []) none = .ok (none, []) ∧
    (∀ prefs uid prompt neg params seed,
      generate_image_txt2img [] [] prefs uid prompt neg params seed = .ok none) ∧
    load_workflow .missing none = .error () ∧
    load_workflow .badYaml none = .error () := by
  refine ⟨rfl, rfl, fun prefs uid prompt neg params seed => ?_, rfl, rfl⟩
  simp [generate_image_txt2img]

/-- C8: for all integer inputs the resolution validator clamps width and
height each into [0, 2048]; if either coordinate clamps to 0 the result is
the configured static default pair; input (0, 500) yields the static default
pair and input (3000, 10) yields (2048, 10). -/
theorem resolution_clamp_spec :
    (∀ w h : Int,
      (0 ≤ max 0 (min w 2048) ∧ max 0 (min w 2048) ≤ 2048 ∧
       0 ≤ max 0 (min h 2048) ∧ max 0 (min h 2048) ≤ 2048) ∧
      ((max 0 (min w 2048) = 0 ∨ max 0 (min h 2048) = 0) →
        validate_resolution w h = (STATIC_WIDTH, STATIC_HEIGHT)) ∧
      (¬(max 0 (min w 2048) = 0 ∨ max 0 (min h 2048) = 0) →
        validate_resolution w h = (max 0 (min w 2048), max 0 (min h 2048)))) ∧
    validate_resolution 0 500 = (STATIC_WIDTH, STATIC_HEIGHT) ∧
    validate_resolution 3000 10 = (2048, 10) := by
  refine ⟨fun w h => ⟨⟨le_max_left _ _, ?_, le_max_left _ _, ?_⟩, ?_, ?_⟩, by decide, by decide⟩
  · exact max_le (by norm_num) (min_le_right _ _)
  · exact max_le (by norm_num) (min_le_right _ _)
  · intro hz
    simp only [validate_resolution, if_pos hz]
  · intro hz
    simp only [validate_resolution, if_neg hz]

/-- C8 witness: the clamped-bounds and branch facts instantiated at the
concrete input (3000, 10). -/
theorem resolution_clamp_spec_witness :
    validate_resolution 3000 10 = (max 0 (min 3000 2048), max 0 (min 10 2048)) :=
  ((resolution_clamp_spec.1 3000 10).2.2) (by decide)

theorem dictItem_default_model : dictItem AVAILABLE_MODELS DEFAULT_MODEL = .ok uncannyCkpt :=
  rfl

theorem dictItem_uncanny_model : dictItem AVAILABLE_MODELS "uncanny" = .ok uncannyCkpt :=
  rfl

theorem txt2img_ok_elim_flag
    {wfStd wfHr : WfVal} {prefs : Prefs} {uid : Nat} {prompt neg : String}
    {params : List (String × String)} {seed : Int} {r : BuildResult}
    (hc : resolvedCkpt params prefs uid = uncannyCkpt ∧
      ¬(strLower (pGet params "noneg" "false") = "true"))
    (h : generate_image_txt2img wfStd wfHr prefs uid prompt neg params seed = .ok (some r)) :
    ∃ wf4 wfn wf6 wf7 wf3 : WfVal,
      setNodeInput (if strLower (pGet params "hr" "no") = "yes" then wfHr else wfStd) 4
        "ckpt_name" (.s (resolvedCkpt params prefs uid)) = .ok wf4 ∧
      updateNodeInputs wf4 3
        [("cfg", .q 2.2), ("sampler_name", .s "euler_ancestral"),
         ("scheduler", .s "sgm_uniform")] = .ok wfn ∧
      setNodeInput wfn 6 "text"
        (.s (pyStripS (txt2imgUncannyPre ++ " " ++ prompt))) = .ok wf6 ∧
      setNodeInput wf6 7 "text" (.s txt2imgUncannyNeg) = .ok wf7 ∧
      updateNodeInputs wf7 3
        [("steps", .i (safe_int (lookupAssoc params "steps") 35)),
         ("cfg", .q 2.2), ("seed", .i seed),
         ("sampler_name", .s "euler_ancestral"),
         ("scheduler", .s "sgm_uniform")] = .ok wf3 ∧
      updateNodeInputs wf3 5
        [("width", .i (validate_resolution (safe_int (lookupAssoc params "width") STATIC_WIDTH)
            (safe_int (lookupAssoc params "height") STATIC_HEIGHT)).1),
         ("height", .i (validate_resolution (safe_int (lookupAssoc params "width") STATIC_WIDTH)
            (safe_int (lookupAssoc params "height") STATIC_HEIGHT)).2),
         ("batch_size", .i (min (safe_int (lookupAssoc params "batch") 1) MAX_BATCH_SIZE))]
        = .ok r.workflow ∧
      r.prefs = (if (lookupAssoc params "model").getD "" ≠ "" then
          prefsSet prefs uid (strLower (resolvedModelKey params prefs uid)) else prefs) ∧
      r.savedPrefs = (if (lookupAssoc params "model").getD "" ≠ "" then true else false) := by
  unfold resolvedCkpt resolvedModelKey at hc ⊢
  obtain ⟨hck, hnn⟩ := hc
  simp only [generate_image_txt2img] at h
  by_cases hemp : (if strLower (pGet params "hr" "no") = "yes" then wfHr else wfStd) = ([] : WfVal)
  · rw [if_pos hemp] at h
    exact absurd h (by simp)
  · rw [if_neg hemp] at h
    simp only [dictItem_default_model, okBind] at h
    obtain ⟨wf4, h4, h⟩ := bindOk.mp h
    simp only [dictItem_uncanny_model, okBind] at h
    rw [if_pos ⟨hck, hnn⟩] at h
    obtain ⟨wfn, hn3, h⟩ := bindOk.mp h
    simp only [pureBind] at h
    obtain ⟨wf6, h6, h⟩ := bindOk.mp h
    obtain ⟨wf7, h7, h⟩ := bindOk.mp h
    obtain ⟨wf3, h3, h⟩ := bindOk.mp h
    obtain ⟨wf5, h5, h⟩ := bindOk.mp h
    have hrr := Option.some.inj (Except.ok.inj h)
    have t2iNegNe : ¬(txt2imgUncannyNeg = "") := by decide
    rw [if_neg hnn, if_neg t2iNegNe] at h7
    rw [hck] at h3
    simp only [ne_eq, not_true_eq_false, if_false, ite_false] at h3
    refine ⟨wf4, wfn, wf6, wf7, wf3, h4, hn3, h6, h7, h3, ?_, ?_, ?_⟩
    · rw [← hrr]
      exact h5
    · rw [← hrr]
      by_cases hm : (lookupAssoc params "model").getD "" ≠ "" <;> simp [hm]
    · rw [← hrr]
      by_cases hm : (lookupAssoc params "model").getD "" ≠ "" <;> simp [hm]

theorem txt2img_ok_elim_else
    {wfStd wfHr : WfVal} {prefs : Prefs} {uid : Nat} {prompt neg : String}
    {params : List (String × String)} {seed : Int} {r : BuildResult}
    (hc : ¬(resolvedCkpt params prefs uid = uncannyCkpt ∧
      ¬(strLower (pGet params "noneg" "false") = "true")))
    (h : generate_image_txt2img wfStd wfHr prefs uid prompt neg params seed = .ok (some r)) :
    ∃ wf4 wf6 wf7 wf3 : WfVal,
      setNodeInput (if strLower (pGet params "hr" "no") = "yes" then wfHr else wfStd) 4
        "ckpt_name" (.s (resolvedCkpt params prefs uid)) = .ok wf4 ∧
      setNodeInput wf4 6 "text"
        (.s (pyStripS (promptPrefixConst ++ " " ++ prompt))) = .ok wf6 ∧
      setNodeInput wf6 7 "text"
        (.s (if strLower (pGet params "noneg" "false") = "true" then ""
             else (if neg = "" then DEFAULT_NEGATIVE_PROMPT else neg))) = .ok wf7 ∧
      updateNodeInputs wf7 3
        [("steps", .i (safe_int (lookupAssoc params "steps") 35)),
         ("cfg", .q (if resolvedCkpt params prefs uid ≠ uncannyCkpt then
            safe_float (lookupAssoc params "cfg") 4 else 2.2)),
         ("seed", .i seed),
         ("sampler_name", .s (if resolvedCkpt params prefs uid ≠ uncannyCkpt then
            pGet params "sampler_name" "dpmpp_2m_sde" else "euler_ancestral")),
         ("scheduler", .s (if resolvedCkpt params prefs uid ≠ uncannyCkpt then
            pGet params "scheduler" "exponential" else "sgm_uniform"))] = .ok wf3 ∧
      updateNodeInputs wf3 5
        [("width", .i (validate_resolution (safe_int (lookupAssoc params "width") STATIC_WIDTH)
            (safe_int (lookupAssoc params "height") STATIC_HEIGHT)).1),
         ("height", .i (validate_resolution (safe_int (lookupAssoc params "width") STATIC_WIDTH)
            (safe_int (lookupAssoc params "height") STATIC_HEIGHT)).2),
         ("batch_size", .i (min (safe_int (lookupAssoc params "batch") 1) MAX_BATCH_SIZE))]
        = .ok r.workflow ∧
      r.prefs = (if (lookupAssoc params "model").getD "" ≠ "" then
          prefsSet prefs uid (strLower (resolvedModelKey params prefs uid)) else prefs) ∧
      r.savedPrefs = (if (lookupAssoc params "model").getD "" ≠ "" then true else false) := by
  unfold resolvedCkpt resolvedModelKey at hc ⊢
  simp only [generate_image_txt2img] at h
  by_cases hemp : (if strLower (pGet params "hr" "no") = "yes" then wfHr else wfStd) = ([] : WfVal)
  · rw [if_pos hemp] at h
    exact absurd h (by simp)
  · rw [if_neg hemp] at h
    simp only [dictItem_default_model, okBind] at h
    obtain ⟨wf4, h4, h⟩ := bindOk.mp h
    simp only [dictItem_uncanny_model, okBind] at h
    rw [if_neg hc] at h
    simp only [pureBind] at h
    obtain ⟨wf6, h6, h⟩ := bindOk.mp h
    obtain ⟨wf7, h7, h⟩ := bindOk.mp h
    obtain ⟨wf3, h3, h⟩ := bindOk.mp h
    obtain ⟨wf5, h5, h⟩ := bindOk.mp h
    have hrr := Option.some.inj (Except.ok.inj h)
    refine ⟨wf4, wf6, wf7, wf3, h4, h6, h7, h3, ?_, ?_, ?_⟩
    · rw [← hrr]
      exact h5
    · rw [← hrr]
      by_cases hm : (lookupAssoc params "model").getD "" ≠ "" <;> simp [hm]
    · rw [← hrr]
      by_cases hm : (lookupAssoc params "model").getD "" ≠ "" <;> simp [hm]

theorem img2img_ok_elim_flag
    {wfStd wfHr : WfVal} {prefs : Prefs} {uid : Nat} {prompt neg : String}
    {params : List (String × String)} {seed : Int} {ufn : String} {r : BuildResult}
    (hc : resolvedCkpt params prefs uid = uncannyCkpt ∧
      ¬(strLower (pGet params "noneg" "false") = "true"))
    (h : generate_image_img2img wfStd wfHr prefs uid prompt neg params seed ufn
      = .ok (some r)) :
    ∃ wf4 wfn wf6 wf7 wf3 : WfVal,
      setNodeInput (if strLower (pGet params "hr" "no") = "yes" then wfHr else wfStd) 4
        "ckpt_name" (.s (resolvedCkpt params prefs uid)) = .ok wf4 ∧
      updateNodeInputs wf4 3
        [("cfg", .q 2.2), ("sampler_name", .s "euler_ancestral"),
         ("scheduler", .s "sgm_uniform")] = .ok wfn ∧
      setNodeInput wfn 6 "text"
        (.s (pyStripS (img2imgUncannyPre ++ " " ++ prompt))) = .ok wf6 ∧
      setNodeInput wf6 7 "text" (.s img2imgUncannyNeg) = .ok wf7 ∧
      updateNodeInputs wf7 3
        [("steps", .i (safe_int (lookupAssoc params "steps") 35)),
         ("cfg", .q 2.2), ("seed", .i seed),
         ("sampler_name", .s "euler_ancestral"),
         ("scheduler", .s "sgm_uniform")] = .ok wf3 ∧
      setNodeInput wf3 5 "image" (.s ufn) = .ok r.workflow ∧
      r.prefs = (if (lookupAssoc params "model").getD "" ≠ "" then
          prefsSet prefs uid (strLower (resolvedModelKey params prefs uid)) else prefs) ∧
      r.savedPrefs = (if (lookupAssoc params "model").getD "" ≠ "" then true else false) := by
  unfold resolvedCkpt resolvedModelKey at hc ⊢
  obtain ⟨hck, hnn⟩ := hc
  simp only [generate_image_img2img] at h
  by_cases hemp : (if strLower (pGet params "hr" "no") = "yes" then wfHr else wfStd) = ([] : WfVal)
  · rw [if_pos hemp] at h
    exact absurd h (by simp)
  · rw [if_neg hemp] at h
    simp only [dictItem_default_model, okBind] at h
    obtain ⟨wf4, h4, h⟩ := bindOk.mp h
    simp only [dictItem_uncanny_model, okBind] at h
    rw [if_pos ⟨hck, hnn⟩] at h
    obtain ⟨wfn, hn3, h⟩ := bindOk.mp h
    simp only [pureBind] at h
    obtain ⟨wf6, h6, h⟩ := bindOk.mp h
    obtain ⟨wf7, h7, h⟩ := bindOk.mp h
    obtain ⟨wf3, h3, h⟩ := bindOk.mp h
    obtain ⟨wf5, h5, h⟩ := bindOk.mp h
    have hrr := Option.some.inj (Except.ok.inj h)
    have i2iNegNe : ¬(img2imgUncannyNeg = "") := by decide
    rw [if_neg hnn, if_neg i2iNegNe] at h7
    rw [hck] at h3
    simp only [ne_eq, not_true_eq_false, if_false, ite_false] at h3
    refine ⟨wf4, wfn, wf6, wf7, wf3, h4, hn3, h6, h7, h3, ?_, ?_, ?_⟩
    · rw [← hrr]
      exact h5
    · rw [← hrr]
      by_cases hm : (lookupAssoc params "model").getD "" ≠ "" <;> simp [hm]
    · rw [← hrr]
      by_cases hm : (lookupAssoc params "model").getD "" ≠ "" <;> simp [hm]

theorem img2img_ok_elim_else
    {wfStd wfHr : WfVal} {prefs : Prefs} {uid : Nat} {prompt neg : String}
    {params : List (String × String)} {seed : Int} {ufn : String} {r : BuildResult}
    (hc : ¬(resolvedCkpt params prefs uid = uncannyCkpt ∧
      ¬(strLower (pGet params "noneg" "false") = "true")))
    (h : generate_image_img2img wfStd wfHr prefs uid prompt neg params seed ufn
      = .ok (some r)) :
    ∃ wf4 wf6 wf7 wf3 : WfVal,
      setNodeInput (if strLower (pGet params "hr" "no") = "yes" then wfHr else wfStd) 4
        "ckpt_name" (.s (resolvedCkpt params prefs uid)) = .ok wf4 ∧
      setNodeInput wf4 6 "text"
        (.s (pyStripS (promptPrefixConst ++ " " ++ prompt))) = .ok wf6 ∧
      setNodeInput wf6 7 "text"
        (.s (if strLower (pGet params "noneg" "false") = "true" then ""
             else (if neg = "" then DEFAULT_NEGATIVE_PROMPT else neg))) = .ok wf7 ∧
      updateNodeInputs wf7 3
        [("steps", .i (safe_int (lookupAssoc params "steps") 35)),
         ("cfg", .q (if resolvedCkpt params prefs uid ≠ uncannyCkpt then
            safe_float (lookupAssoc params "cfg") 4 else 2.2)),
         ("seed", .i seed),
         ("sampler_name", .s (if resolvedCkpt params prefs uid ≠ uncannyCkpt then
            pGet params "sampler_name" "dpmpp_2m_sde" else "euler_ancestral")),
         ("scheduler", .s (if resolvedCkpt params prefs uid ≠ uncannyCkpt then
            pGet params "scheduler" "exponential" else "sgm_uniform"))] = .ok wf3 ∧
      setNodeInput wf3 5 "image" (.s ufn) = .ok r.workflow ∧
      r.prefs = (if (lookupAssoc params "model").getD "" ≠ "" then
          prefsSet prefs uid (strLower (resolvedModelKey params prefs uid)) else prefs) ∧
      r.savedPrefs = (if (lookupAssoc params "model").getD "" ≠ "" then true else false) := by
  unfold resolvedCkpt resolvedModelKey at hc ⊢
  simp only [generate_image_img2img] at h
  by_cases hemp : (if strLower (pGet params "hr" "no") = "yes" then wfHr else wfStd) = ([] : WfVal)
  · rw [if_pos hemp] at h
    exact absurd h (by simp)
  · rw [if_neg hemp] at h
    simp only [dictItem_default_model, okBind] at h
    obtain ⟨wf4, h4, h⟩ := bindOk.mp h
    simp only [dictItem_uncanny_model, okBind] at h
    rw [if_neg hc] at h
    simp only [pureBind] at h
    obtain ⟨wf6, h6, h⟩ := bindOk.mp h
    obtain ⟨wf7, h7, h⟩ := bindOk.mp h
    obtain ⟨wf3, h3, h⟩ := bindOk.mp h
    obtain ⟨wf5, h5, h⟩ := bindOk.mp h
    have hrr := Option.some.inj (Except.ok.inj h)
    refine ⟨wf4, wf6, wf7, wf3, h4, h6, h7, h3, ?_, ?_, ?_⟩
    · rw [← hrr]
      exact h5
    · rw [← hrr]
      by_cases hm : (lookupAssoc params "model").getD "" ≠ "" <;> simp [hm]
    · rw [← hrr]
      by_cases hm : (lookupAssoc params "model").getD "" ≠ "" <;> simp [hm]

theorem updateNodeInputs_ok_node {wf wf2 : WfVal} {n : Int} {kvs : List (String × PVal)}
    (h : updateNodeInputs wf n kvs = .ok wf2) : ∃ i, getNode wf n = some i := by
  unfold updateNodeInputs at h
  cases hg : getNode wf n <;> rw [hg] at h
  · simp at h
  · exact ⟨_, rfl⟩

theorem node3_reads {wf7 wf3 : WfVal} {vs vc vseed vsam vsch : PVal}
    (h3 : updateNodeInputs wf7 3
      [("steps", vs), ("cfg", vc), ("seed", vseed), ("sampler_name", vsam),
       ("scheduler", vsch)] = .ok wf3) :
    getNodeInput wf3 3 "steps" = some vs ∧
    getNodeInput wf3 3 "cfg" = some vc ∧
    getNodeInput wf3 3 "sampler_name" = some vsam ∧
    getNodeInput wf3 3 "scheduler" = some vsch := by
  obtain ⟨i, hi⟩ := updateNodeInputs_ok_node h3
  have e := getNodeInput_after_upd_same h3
  refine ⟨?_, ?_, ?_, ?_⟩
  · rw [e "steps", hi, Option.some_bind]
    simp only [List.foldl_cons, List.foldl_nil]
    rw [getIn_setIn_other, getIn_setIn_other, getIn_setIn_other, getIn_setIn_other,
      getIn_setIn_same]
    all_goals decide
  · rw [e "cfg", hi, Option.some_bind]
    simp only [List.foldl_cons, List.foldl_nil]
    rw [getIn_setIn_other, getIn_setIn_other, getIn_setIn_other, getIn_setIn_same]
    all_goals decide
  · rw [e "sampler_name", hi, Option.some_bind]
    simp only [List.foldl_cons, List.foldl_nil]
    rw [getIn_setIn_other, getIn_setIn_same]
    all_goals decide
  · rw [e "scheduler", hi, Option.some_bind]
    simp only [List.foldl_cons, List.foldl_nil]
    rw [getIn_setIn_same]

/-- C6: in the txt2img and img2img builders, when the resolved checkpoint is
the flagship (uncanny) one, the job is forced to guidance scale 2.2, sampler
euler_ancestral and scheduler sgm_uniform, and, unless the caller disabled
negative prompts with noneg, the curated negative prompt and curated prompt
prefix are written; for any other resolved checkpoint the job carries the
caller-supplied or generic default steps, guidance scale, sampler and
scheduler. -/
theorem flagship_model_override
    (wfStd wfHr : WfVal) (prefs : Prefs) (uid : Nat) (prompt neg : String)
    (params : List (String × String)) (seed : Int) (ufn : String) (r r2 : BuildResult)
    (h1 : generate_image_txt2img wfStd wfHr prefs uid prompt neg params seed = .ok (some r))
    (h2 : generate_image_img2img wfStd wfHr prefs uid prompt neg params seed ufn
      = .ok (some r2)) :
    (resolvedCkpt params prefs uid = uncannyCkpt →
      (getNodeInput r.workflow 3 "cfg" = some (.q 2.2) ∧
       getNodeInput r.workflow 3 "sampler_name" = some (.s "euler_ancestral") ∧
       getNodeInput r.workflow 3 "scheduler" = some (.s "sgm_uniform") ∧
       getNodeInput r2.workflow 3 "cfg" = some (.q 2.2) ∧
       getNodeInput r2.workflow 3 "sampler_name" = some (.s "euler_ancestral") ∧
       getNodeInput r2.workflow 3 "scheduler" = some (.s "sgm_uniform")) ∧
      (¬(strLower (pGet params "noneg" "false") = "true") →
        getNodeInput r.workflow 7 "text" = some (.s txt2imgUncannyNeg) ∧
        getNodeInput r.workflow 6 "text"
          = some (.s (pyStripS (txt2imgUncannyPre ++ " " ++ prompt))) ∧
        getNodeInput r2.workflow 7 "text" = some (.s img2imgUncannyNeg) ∧
        getNodeInput r2.workflow 6 "text"
          = some (.s (pyStripS (img2imgUncannyPre ++ " " ++ prompt))))) ∧
    (resolvedCkpt params prefs uid ≠ uncannyCkpt →
      getNodeInput r.workflow 3 "steps"
        = some (.i (safe_int (lookupAssoc params "steps") 35)) ∧
      getNodeInput r.workflow 3 "cfg"
        = some (.q (safe_float (lookupAssoc params "cfg") 4)) ∧
      getNodeInput r.workflow 3 "sampler_name"
        = some (.s (pGet params "sampler_name" "dpmpp_2m_sde")) ∧
      getNodeInput r.workflow 3 "scheduler"
        = some (.s (pGet params "scheduler" "exponential")) ∧
      getNodeInput r2.workflow 3 "steps"
        = some (.i (safe_int (lookupAssoc params "steps") 35)) ∧
      getNodeInput r2.workflow 3 "cfg"
        = some (.q (safe_float (lookupAssoc params "cfg") 4)) ∧
      getNodeInput r2.workflow 3 "sampler_name"
        = some (.s (pGet params "sampler_name" "dpmpp_2m_sde")) ∧
      getNodeInput r2.workflow 3 "scheduler"
        = some (.s (pGet params "scheduler" "exponential"))) := by
  constructor
  · intro hck
    by_cases hnn : strLower (pGet params "noneg" "false") = "true"
    · have hc : ¬(resolvedCkpt params prefs uid = uncannyCkpt ∧
          ¬(strLower (pGet params "noneg" "false") = "true")) :=
        fun hand => hand.2 hnn
      obtain ⟨wf4, wf6, wf7, wf3, h4, h6, h7, h3, h5, hp, hsv⟩ :=
        txt2img_ok_elim_else hc h1
      obtain ⟨xf4, xf6, xf7, xf3, x4, x6, x7, x3, x5, xp, xsv⟩ :=
        img2img_ok_elim_else hc h2
      rw [hck] at h3 x3
      simp only [ne_eq, eq_self_iff_true, not_true_eq_false, if_false] at h3 x3
      have hr3 := node3_reads h3
      have xr3 := node3_reads x3
      have eP := getNodeInput_after_upd_other h5 3
      have xP := getNodeInput_after_set_other x5 3
      refine ⟨⟨?_, ?_, ?_, ?_, ?_, ?_⟩, fun hfalse => absurd hnn hfalse⟩
      · rw [eP "cfg" (by decide)]
        exact hr3.2.1
      · rw [eP "sampler_name" (by decide)]
        exact hr3.2.2.1
      · rw [eP "scheduler" (by decide)]
        exact hr3.2.2.2
      · rw [xP "cfg" (by decide)]
        exact xr3.2.1
      · rw [xP "sampler_name" (by decide)]
        exact xr3.2.2.1
      · rw [xP "scheduler" (by decide)]
        exact xr3.2.2.2
    · obtain ⟨wf4, wfn, wf6, wf7, wf3, h4, hn3, h6, h7, h3, h5, hp, hsv⟩ :=
        txt2img_ok_elim_flag ⟨hck, hnn⟩ h1
      obtain ⟨xf4, xfn, xf6, xf7, xf3, x4, xn3, x6, x7, x3, x5, xp, xsv⟩ :=
        img2img_ok_elim_flag ⟨hck, hnn⟩ h2
      have hr3 := node3_reads h3
      have xr3 := node3_reads x3
      have eP := getNodeInput_after_upd_other h5 3
      have xP := getNodeInput_after_set_other x5 3
      have e7P := getNodeInput_after_upd_other h5 7
      have x7P := getNodeInput_after_set_other x5 7
      have e73 := getNodeInput_after_upd_other h3 7
      have x73 := getNodeInput_after_upd_other x3 7
      have e6P := getNodeInput_after_upd_other h5 6
      have x6P := getNodeInput_after_set_other x5 6
      have e63 := getNodeInput_after_upd_other h3 6
      have x63 := getNodeInput_after_upd_other x3 6
      have e67 := getNodeInput_after_set_other h7 6
      have x67 := getNodeInput_after_set_other x7 6
      refine ⟨⟨?_, ?_, ?_, ?_, ?_, ?_⟩, fun _ => ⟨?_, ?_, ?_, ?_⟩⟩
      · rw [eP "cfg" (by decide)]
        exact hr3.2.1
      · rw [eP "sampler_name" (by decide)]
        exact hr3.2.2.1
      · rw [eP "scheduler" (by decide)]
        exact hr3.2.2.2
      · rw [xP "cfg" (by decide)]
        exact xr3.2.1
      · rw [xP "sampler_name" (by decide)]
        exact xr3.2.2.1
      · rw [xP "scheduler" (by decide)]
        exact xr3.2.2.2
      · rw [e7P "text" (by decide), e73 "text" (by decide)]
        exact getNodeInput_after_set_same h7
      · rw [e6P "text" (by decide), e63 "text" (by decide), e67 "text" (by decide)]
        exact getNodeInput_after_set_same h6
      · rw [x7P "text" (by decide), x73 "text" (by decide)]
        exact getNodeInput_after_set_same x7
      · rw [x6P "text" (by decide), x63 "text" (by decide), x67 "text" (by decide)]
        exact getNodeInput_after_set_same x6
  · intro hck
    have hc : ¬(resolvedCkpt params prefs uid = uncannyCkpt ∧
        ¬(strLower (pGet params "noneg" "false") = "true")) :=
      fun hand => hck hand.1
    obtain ⟨wf4, wf6, wf7, wf3, h4, h6, h7, h3, h5, hp, hsv⟩ :=
      txt2img_ok_elim_else hc h1
    obtain ⟨xf4, xf6, xf7, xf3, x4, x6, x7, x3, x5, xp, xsv⟩ :=
      img2img_ok_elim_else hc h2
    simp only [ne_eq, hck, not_false_eq_true, if_true] at h3 x3
    have hr3 := node3_reads h3
    have xr3 := node3_reads x3
    have eP := getNodeInput_after_upd_other h5 3
    have xP := getNodeInput_after_set_other x5 3
    refine ⟨?_, ?_, ?_, ?_, ?_, ?_, ?_, ?_⟩
    · rw [eP "steps" (by decide)]
      exact hr3.1
    · rw [eP "cfg" (by decide)]
      exact hr3.2.1
    · rw [eP "sampler_name" (by decide)]
      exact hr3.2.2.1
    · rw [eP "scheduler" (by decide)]
      exact hr3.2.2.2
    · rw [xP "steps" (by decide)]
      exact xr3.1
    · rw [xP "cfg" (by decide)]
      exact xr3.2.1
    · rw [xP "sampler_name" (by decide)]
      exact xr3.2.2.1
    · rw [xP "scheduler" (by decide)]
      exact xr3.2.2.2

/-- C6 witness: the non-flagship side of the theorem at a concrete run with
the model key indigo: the job carries the generic default guidance scale,
sampler and scheduler in both builders. -/
theorem flagship_model_override_witness :
    getNodeInput indigoTxtResult.workflow 3 "cfg" = some (.q 4) ∧
    getNodeInput indigoTxtResult.workflow 3 "sampler_name" = some (.s "dpmpp_2m_sde") ∧
    getNodeInput indigoImgResult.workflow 3 "scheduler" = some (.s "exponential") := by
  have h := flagship_model_override exTemplate exTemplate [] 1 "p" "n"
    [("model", "indigo")] 7 "in.png" indigoTxtResult indigoImgResult rfl rfl
  have h2 := h.2 (by decide)
  exact ⟨h2.2.1, h2.2.2.1, h2.2.2.2.2.2.2.2⟩

/-- C10 counterexample: a parameter mapping that contains the model key with
the empty-string value (producible by the request parser, since the regex
value may be empty). The builder then resolves the key but, because Python
truthiness treats the empty string as false at the if params.get("model")
guard, it neither overwrites the stored preference nor saves the store:
the stored preference indigo survives. -/
theorem model_pref_empty_value_not_saved :
    (lookupAssoc [("model", "")] "model").isSome = true ∧
    (generate_image_txt2img exTemplate exTemplate [(1, "indigo")] 1 "p" "n"
        [("model", "")] 0).map
      (Option.map (fun r => (r.prefs, r.savedPrefs))) = .ok (some ([(1, "indigo")], false)) := by
  exact ⟨rfl, rfl⟩

/-- C10 amended: whenever the parameter mapping maps the model key to a
non-empty value, the txt2img and img2img builders overwrite the requesting
user's stored preference with the lowercased value and save the preference
store, whether or not the value names a known model; when the value is
unknown to the model table the checkpoint written into the job for the
current request falls back to the default (flagship) checkpoint, while the
unknown key still becomes the stored preference. -/
theorem model_pref_persist_amended
    (wfStd wfHr : WfVal) (prefs : Prefs) (uid : Nat) (prompt neg : String)
    (params : List (String × String)) (seed : Int) (ufn : String) (m : String)
    (r r2 : BuildResult)
    (hm : lookupAssoc params "model" = some m) (hne : m ≠ "")
    (h1 : generate_image_txt2img wfStd wfHr prefs uid prompt neg params seed = .ok (some r))
    (h2 : generate_image_img2img wfStd wfHr prefs uid prompt neg params seed ufn
      = .ok (some r2)) :
    (r.prefs = prefsSet prefs uid (strLower m) ∧ r.savedPrefs = true ∧
      (lookupAssoc AVAILABLE_MODELS (strLower m) = none →
        getNodeInput r.workflow 4 "ckpt_name" = some (.s uncannyCkpt))) ∧
    (r2.prefs = prefsSet prefs uid (strLower m) ∧ r2.savedPrefs = true ∧
      (lookupAssoc AVAILABLE_MODELS (strLower m) = none →
        getNodeInput r2.workflow 4 "ckpt_name" = some (.s uncannyCkpt))) := by
  have hmk : resolvedModelKey params prefs uid = m := by
    unfold resolvedModelKey
    rw [hm]
    rfl
  have hcond : (lookupAssoc params "model").getD "" ≠ "" := by
    rw [hm]
    exact hne
  constructor
  · by_cases hc : resolvedCkpt params prefs uid = uncannyCkpt ∧
      ¬(strLower (pGet params "noneg" "false") = "true")
    · obtain ⟨wf4, wfn, wf6, wf7, wf3, h4, hn3, h6, h7, h3, h5, hp, hsv⟩ :=
        txt2img_ok_elim_flag hc h1
      refine ⟨?_, ?_, ?_⟩
      · rw [hp, if_pos hcond, hmk]
      · rw [hsv, if_pos hcond]
      · intro hB
        have hres : resolvedCkpt params prefs uid = uncannyCkpt := by
          unfold resolvedCkpt
          rw [hmk, hB]
          rfl
        rw [getNodeInput_after_upd_other h5 4 "ckpt_name" (by decide),
          getNodeInput_after_upd_other h3 4 "ckpt_name" (by decide),
          getNodeInput_after_set_other h7 4 "ckpt_name" (by decide),
          getNodeInput_after_set_other h6 4 "ckpt_name" (by decide),
          getNodeInput_after_upd_other hn3 4 "ckpt_name" (by decide),
          getNodeInput_after_set_same h4, hres]
    · obtain ⟨wf4, wf6, wf7, wf3, h4, h6, h7, h3, h5, hp, hsv⟩ :=
        txt2img_ok_elim_else hc h1
      refine ⟨?_, ?_, ?_⟩
      · rw [hp, if_pos hcond, hmk]
      · rw [hsv, if_pos hcond]
      · intro hB
        have hres : resolvedCkpt params prefs uid = uncannyCkpt := by
          unfold resolvedCkpt
          rw [hmk, hB]
          rfl
        rw [getNodeInput_after_upd_other h5 4 "ckpt_name" (by decide),
          getNodeInput_after_upd_other h3 4 "ckpt_name" (by decide),
          getNodeInput_after_set_other h7 4 "ckpt_name" (by decide),
          getNodeInput_after_set_other h6 4 "ckpt_name" (by decide),
          getNodeInput_after_set_same h4, hres]
  · by_cases hc : resolvedCkpt params prefs uid = uncannyCkpt ∧
      ¬(strLower (pGet params "noneg" "false") = "true")
    · obtain ⟨wf4, wfn, wf6, wf7, wf3, h4, hn3, h6, h7, h3, h5, hp, hsv⟩ :=
        img2img_ok_elim_flag hc h2
      refine ⟨?_, ?_, ?_⟩
      · rw [hp, if_pos hcond, hmk]
      · rw [hsv, if_pos hcond]
      · intro hB
        have hres : resolvedCkpt params prefs uid = uncannyCkpt := by
          unfold resolvedCkpt
          rw [hmk, hB]
          rfl
        rw [getNodeInput_after_set_other h5 4 "ckpt_name" (by decide),
          getNodeInput_after_upd_other h3 4 "ckpt_name" (by decide),
          getNodeInput_after_set_other h7 4 "ckpt_name" (by decide),
          getNodeInput_after_set_other h6 4 "ckpt_name" (by decide),
          getNodeInput_after_upd_other hn3 4 "ckpt_name" (by decide),
          getNodeInput_after_set_same h4, hres]
    · obtain ⟨wf4, wf6, wf7, wf3, h4, h6, h7, h3, h5, hp, hsv⟩ :=
        img2img_ok_elim_else hc h2
      refine ⟨?_, ?_, ?_⟩
      · rw [hp, if_pos hcond, hmk]
      · rw [hsv, if_pos hcond]
      · intro hB
        have hres : resolvedCkpt params prefs uid = uncannyCkpt := by
          unfold resolvedCkpt
          rw [hmk, hB]
          rfl
        rw [getNodeInput_after_set_other h5 4 "ckpt_name" (by decide),
          getNodeInput_after_upd_other h3 4 "ckpt_name" (by decide),
          getNodeInput_after_set_other h7 4 "ckpt_name" (by decide),
          getNodeInput_after_set_other h6 4 "ckpt_name" (by decide),
          getNodeInput_after_set_same h4, hres]

/-- C10 witness: the amended theorem applied to concrete runs with the
unknown model key NoSuchModel: the lowercased key is stored and saved in
both builders, and the checkpoint written into the jobs is the default
model checkpoint. -/
theorem model_pref_persist_amended_witness :
    (unknownModelTxtResult.prefs = prefsSet [] 1 (strLower "NoSuchModel") ∧
      unknownModelTxtResult.savedPrefs = true ∧
      getNodeInput unknownModelTxtResult.workflow 4 "ckpt_name" = some (.s uncannyCkpt)) ∧
    (unknownModelImgResult.prefs = prefsSet [] 1 (strLower "NoSuchModel") ∧
      unknownModelImgResult.savedPrefs = true ∧
      getNodeInput unknownModelImgResult.workflow 4 "ckpt_name" = some (.s uncannyCkpt)) := by
  have h := model_pref_persist_amended exTemplate exTemplate [] 1 "p" "n"
    [("model", "NoSuchModel")] 7 "in.png" "NoSuchModel"
    unknownModelTxtResult unknownModelImgResult rfl (by decide) rfl rfl
  exact ⟨⟨h.1.1, h.1.2.1, h.1.2.2 rfl⟩, ⟨h.2.1, h.2.2.1, h.2.2.2 rfl⟩⟩

/-- C5 counterexample: the animate job builder, handed the parameter value
steps:abc (unparseable as an int), raises out of the builder instead of
substituting the default step count: line 63 of cogs/animate.py converts
with a raw int(). -/
theorem animate_invalid_steps_raises :
    generate_image_animate exAnimateWf [] 1 "x" "n" [("steps", "abc")] 0 = .error () := by
  rfl

/-- C5 amended: in the txt2img, img2img and inpaint builders every numeric
parameter goes through _safe_int or _safe_float, which substitute the named
default for a missing or unparseable value and never raise (they are total);
but the animate builder converts steps (and cfg, for a non-flagship model)
with raw int()/float(), so an unparseable steps value propagates an error
out of that builder and it never produces a filled workflow. -/
theorem numeric_fallback_amended :
    (∀ d : Int, safe_int none d = d) ∧
    (∀ (s : String) (d : Int), pyIntOfString s.toList = none → safe_int (some s) d = d) ∧
    (∀ (s : String) (d : Int) (n : Int), pyIntOfString s.toList = some n →
      safe_int (some s) d = n) ∧
    (∀ d : ℚ, safe_float none d = d) ∧
    (∀ (s : String) (d : ℚ), pyFloatOfString s.toList = none → safe_float (some s) d = d) ∧
    (∀ (wf : WfVal) (prefs : Prefs) (uid : Nat) (prompt neg : String)
        (params : List (String × String)) (seed : Int) (s : String) (r : WfVal),
      lookupAssoc params "steps" = some s → pyIntOfString s.toList = none →
      generate_image_animate wf prefs uid prompt neg params seed ≠ .ok (some r)) := by
  refine ⟨fun d => rfl, ?_, ?_, fun d => rfl, ?_, ?_⟩
  · intro s d h
    have h2 : pyIntOfString s.data = none := h
    simp [safe_int, h2]
  · intro s d n h
    have h2 : pyIntOfString s.data = some n := h
    simp [safe_int, h2]
  · intro s d h
    have h2 : pyFloatOfString s.data = none := h
    simp [safe_float, h2]
  · intro wf prefs uid prompt neg params seed s r
    intro hs hn
    simp only [generate_image_animate]
    split
    · simp
    · simp only [dictItem_uncanny_model, okBind]
      apply neBindOk
      intro wf1
      split
      all_goals repeat (apply neBindOk; intro _)
      all_goals simp only [hs, hn, errBind]
      all_goals simp

/-- C5 witness: the fallback equations at the unparseable literals abc and
xyz, and the animate refusal at the concrete template with steps:abc. -/
theorem numeric_fallback_amended_witness :
    safe_int (some "abc") 35 = 35 ∧ safe_float (some "xyz") 4 = 4 ∧
    generate_image_animate exAnimateWf [] 1 "x" "n" [("steps", "abc")] 0 ≠
      .ok (some exAnimateWf) :=
  ⟨numeric_fallback_amended.2.1 "abc" 35 (by rfl),
    numeric_fallback_amended.2.2.2.2.1 "xyz" 4 (by rfl),
    numeric_fallback_amended.2.2.2.2.2 exAnimateWf [] 1 "x" "n" [("steps", "abc")] 0 "abc"
      exAnimateWf (by rfl) (by rfl)⟩

/-- C7: parsing the exact text "a cat steps:50, neg:blurry" returns positive
prompt "a cat", the parameter mapping sending steps to "50", and negative
prompt "blurry". -/
theorem parse_prompt_example :
    parse_prompt "a cat steps:50, neg:blurry" = ("a cat", some "blurry", [("steps", "50")]) := by
  rfl

/-- C9: the resource monitor admissibility check returns true whenever usage
cannot be measured (no GPUs found, GPUtil import failure, or any error in
the query) and otherwise reports whether the first GPU usage in GB is at or
below the threshold; being a total Bool-valued function of the probe outcome,
it propagates no exception. -/
theorem vram_fail_open (p : GpuProbe) :
    (getGPUs p = .error () → check_vram_usage p = true) ∧
    (getGPUs p = .ok [] → check_vram_usage p = true) ∧
    (∀ m rest, getGPUs p = .ok (m :: rest) →
      (check_vram_usage p = true ↔ m / 1024 ≤ VRAM_THRESHOLD_GB)) := by
  refine ⟨?_, ?_, ?_⟩
  · intro h; simp [check_vram_usage, h]
  · intro h; simp [check_vram_usage, h]
  · intro m rest h
    simp [check_vram_usage, h]

/-- C9 witness: instantiation at a query-error probe and at a measured probe
of 10240 MB (10 GB, under the 20 GB threshold). -/
theorem vram_fail_open_witness :
    check_vram_usage .queryError = true ∧ check_vram_usage (.found [10240]) = true := by
  constructor
  · exact (vram_fail_open .queryError).1 rfl
  · exact ((vram_fail_open (.found [10240])).2.2 10240 [] rfl).2 (by norm_num [VRAM_THRESHOLD_GB])

end Drawbot
